import Mathlib

/-! kexecboot: boot-candidate ordering, command synthesis and launch hand-off

A shallow embedding of `src/kexecboot.c`.

Conventions of the embedding.

* A C string is a `List Char` (the bytes before the terminating NUL); a `char *` that may
  be `NULL` is an `Option CStr`.  Reading through a `NULL` pointer has no defined result and
  is rendered as `none` by the function that does it.
* `strcpy`, `strcat` and `sprintf` are the string operations they perform.  Where the
  source declares the size of the destination (`mount_dev[16]`, `mount_fstype[16]`,
  `str_mtd_id[3]`, `malloc(MAX_ARG_LEN)`, `MAX_LOAD_ARGV_NR`, `sizeof_desc`) the write is
  `strcpy_buf` or `strcat_buf`, which has no defined result (`none`) when the string and
  its terminator do not fit.  Heap allocation is taken to succeed.
* Preprocessor symbols and the constants of headers that are not part of `kexecboot.c`
  are fields of `Config`; system calls and functions of other modules whose result
  depends on the machine are fields of `Env`.
* Unbounded loops carry a fuel argument; `none` is returned when the fuel runs out.
* A function that acts on the machine takes the answer of the machine to each of its calls
  as an argument and returns the calls it makes, in order, as a list of `Event`.
-/

namespace Kexecboot

/-- A NUL-terminated C string, without its terminator. -/
abbrev CStr := List Char

/-- Build-time configuration: preprocessor symbols used by `kexecboot.c` and constants
declared in `config.h` and `menu.h`. -/
structure Config where
  MOUNTPOINT : CStr
  KEXEC_PATH : CStr
  A_DEVICES : Int
  USE_HOST_DEBUG : Bool
  MEM_MIN : Option Nat
  MEM_MAX : Option Nat
  USE_HARDBOOT : Bool
  USE_ATAGS : Bool
  USE_NO_DTB : Bool
  USE_NO_CHECKS : Bool
  USE_KEXEC_FILE_SYSCALL : Bool
  USE_KEXEC_SYSCALL : Bool
  UBI_VID_HDR_OFFSET : Option CStr
  USE_ICONS : Bool := false

/-- Results of the system calls and of the other modules that `kexecboot.c` calls.
`readlink p` is what `readlink(p, buf, sizeof(buf) - 1)` leaves in `buf`, `none` when it
returns `-1`. -/
structure Env where
  readlink : CStr → Option CStr
  ubi_attach : CStr → Int
  find_attached_ubi_device : CStr → Int

/-- The fields of `struct boot_item_t` (devicescan.h) that `kexecboot.c` reads.  The kernel
path is always present; every other pointer may be `NULL`. -/
structure boot_item_t where
  device : Option CStr
  fstype : Option CStr
  blocks : Nat
  label : Option CStr
  kernelpath : CStr
  dtbpath : Option CStr
  initrd : Option CStr
  cmdline : Option CStr
  cmdline_append : Option CStr
  exec_cmdline : Option CStr
  priority : Int
deriving DecidableEq

/-- The boot registry `struct bootconf_t`: the entries `list[0 .. fill)`. -/
structure bootconf_t where
  list : List boot_item_t
deriving DecidableEq

/-- The fill count of a registry. -/
def bootconf_t.fill (bl : bootconf_t) : Nat := bl.list.length

/-- The fields of `struct cfgdata_t` that `start_kernel` reads through `params->cfg`. -/
structure cfgdata_t where
  mtdparts : Option CStr
  fbcon : Option CStr
deriving DecidableEq

/-- A menu entry `kx_menu_item`; `submenu` is the index of a level of the menu. -/
structure kx_menu_item where
  id : Int
  label : CStr
  description : Option CStr
  submenu : Option Nat
deriving DecidableEq

/-- A menu level `kx_menu_level`: `list[0 .. count)`, the parent level, the number
`current_no` of the highlighted entry and the state of the stored pointer `current`.  The
functions of menu.c that store the pointer are not among the sources; they are taken to
store `list[current_no]`.  `current_freed` tells that the entry the pointer was set to has
been freed since (by `do_rescan`), so that the pointer dangles. -/
structure kx_menu_level where
  parent : Option Nat
  list : List kx_menu_item
  current_no : Nat := 0
  current_freed : Bool := false
deriving DecidableEq

/-- The menu `kx_menu` created with room for two levels: the top level (level 0), the
system level (level 1, `none` while it is not created) and the pointer `current` to the
active level, `none` for `NULL`. -/
structure kx_menu where
  top : kx_menu_level
  system : Option kx_menu_level := none
  current : Option Nat := none
deriving DecidableEq

/-- The contexts of the main loop. -/
inductive kx_context where
  | KX_CTX_MENU
  | KX_CTX_TEXTVIEW
deriving DecidableEq, Repr

/-- The common parameters `struct params_t`. -/
structure params_t where
  cfg : cfgdata_t
  bootcfg : Option bootconf_t
  menu : kx_menu
  context : kx_context
deriving DecidableEq

/-! ## libc -/

/-- The string written by `strcpy(dst, src)`. -/
def strcpy (_dst src : CStr) : CStr := src

/-- The string held by `dst` after `strcat(dst, src)`. -/
def strcat (dst src : CStr) : CStr := dst ++ src

/-- The string written by `strcpy(dst, src)` into a buffer `dst` of `size` bytes; writing
past the end of the buffer has no defined result. -/
def strcpy_buf (size : Nat) (_dst src : CStr) : Option CStr :=
  if src.length < size then some src else none

/-- The string held by a buffer `dst` of `size` bytes after `strcat(dst, src)`; writing past
the end of the buffer has no defined result. -/
def strcat_buf (size : Nat) (dst src : CStr) : Option CStr :=
  if dst.length + src.length < size then some (dst ++ src) else none

/-- The string held by `s` after `memset(s, '\0', n)`: with `n = 0` nothing is written,
otherwise the first byte is NUL and the string is empty. -/
def memset_nul (s : CStr) (n : Nat) : CStr := if n = 0 then s else []

/-- Whether `strncmp(a, b, n)` returns 0. -/
def strncmp_eq (a b : CStr) (n : Nat) : Bool := a.take n == b.take n

/-- The conversion `%d`. -/
def fmt_d (u : Int) : CStr := (toString u).toList

/-- The conversion `%llu`. -/
def fmt_llu (n : Nat) : CStr := (toString n).toList

/-- The conversion `%s`; a `NULL` argument is printed as `(null)`. -/
def fmt_s (s : Option CStr) : CStr := s.getD "(null)".toList

/-- The conversion `%08x` of an `unsigned int`. -/
def fmt_08x (n : Nat) : CStr :=
  let ds := Nat.toDigits 16 (n % 2 ^ 32)
  List.replicate (8 - ds.length) '0' ++ ds

/-- The string left by `snprintf(buf, size, ...)` when the conversions produce `text`. -/
def snprintf (size : Nat) (text : CStr) : CStr := text.take (size - 1)

/-- The predicate `isspace` of the C locale. -/
def isspace (c : Char) : Bool :=
  c.toNat == 32 || (9 ≤ c.toNat && c.toNat ≤ 13)

/-- The digit loop of `atoi`. -/
def atoi_digits : Int → CStr → Int
  | acc, [] => acc
  | acc, c :: cs =>
    if 48 ≤ c.toNat ∧ c.toNat ≤ 57 then atoi_digits (acc * 10 + ((c.toNat : Int) - 48)) cs
    else acc

/-- The function `atoi`: leading white space, an optional sign, decimal digits. -/
def atoi (s : CStr) : Int :=
  match s.dropWhile isspace with
  | [] => 0
  | c :: cs =>
    if c = '-' then - atoi_digits 0 cs
    else if c = '+' then atoi_digits 0 cs
    else atoi_digits 0 (c :: cs)

/-- The function `isdigit` on an `int`: true for the codes of `'0'` .. `'9'`. -/
def isdigit (c : Int) : Bool := 48 ≤ c && c ≤ 57

/-! ## menu.c -/

/-- Modelled from the spec: `menu_item_add` of menu.c, which is not among the sources.
It appends one entry with the given id, label, description and submenu to the level
(`do_rescan` walks the entries as `list[1 .. count)` and frees label and description, so
the entry holds its own copies). -/
def menu_item_add (level : kx_menu_level) (id : Int) (label : CStr)
    (description : Option CStr) (submenu : Option Nat) : kx_menu_level :=
  { level with list := level.list ++ [{ id := id, label := label,
                                        description := description, submenu := submenu }] }

/-! ## fill_menu -/

/-- The constant `sizeof_desc` of `fill_menu`. -/
def sizeof_desc : Nat := 160

/-- The body of the inner `for` of `fill_menu` (lines 761-767) at index `i`, on the pair
`(max_pri, max_i)`. -/
def fill_menu_search_step (bl : bootconf_t) (a : List Int) (st : Int × Int) (i : Nat) :
    Int × Int :=
  if a[i]? = some 0 then
    match bl.list[i]? with
    | some tbi => if tbi.priority > st.1 then (tbi.priority, (i : Int)) else st
    | none => st
  else st

/-- Lines 758-768 of `fill_menu`: `max_pri = -1` and the search for the unprocessed item
of maximum priority; returns `(max_pri, max_i)`. -/
def fill_menu_search (bl : bootconf_t) (a : List Int) (b_items : Nat) (max_i : Int) :
    Int × Int :=
  (List.range b_items).foldl (fill_menu_search_step bl a) (-1, max_i)

/-- The variables of `fill_menu` that its outer loop changes. -/
structure fill_state where
  a : List Int
  max_i : Int
  top : kx_menu_level
deriving DecidableEq

/-- The outer `for(;;)` of `fill_menu` (lines 757-815). -/
def fill_menu_loop (cfg : Config) (bl : bootconf_t) (b_items : Nat) :
    Nat → fill_state → Option fill_state
  | 0, _ => none
  | fuel + 1, st =>
    let r := fill_menu_search bl st.a b_items st.max_i
    let max_pri := r.1
    let max_i := r.2
    let st1 : Option fill_state :=
      if max_pri ≥ 0 then
        match bl.list[max_i.toNat]? with
        | none => none
        | some tbi =>
          let desc := snprintf sizeof_desc
            (fmt_s tbi.device ++ " ".toList ++ fmt_s tbi.fstype ++ " ".toList
              ++ fmt_llu (tbi.blocks / 1024) ++ "Mb".toList)
          let label := match tbi.label with
            | some l => l
            | none => tbi.kernelpath.drop cfg.MOUNTPOINT.length
          some { a := st.a.set max_i.toNat 1, max_i := max_i,
                 top := menu_item_add st.top (cfg.A_DEVICES + max_i) label (some desc) none }
      else some { st with max_i := max_i }
    match st1 with
    | none => none
    | some st1 => if max_pri = -1 then some st1 else fill_menu_loop cfg bl b_items fuel st1

/-- The function `fill_menu`: returns its return value and the parameters with the top
menu level filled. -/
def fill_menu (cfg : Config) (fuel : Nat) (params : params_t) : Option (Int × params_t) :=
  match params.bootcfg with
  | none => some (0, params)
  | some bl =>
    if bl.fill > 0 then
      let b_items := bl.fill
      let a := List.replicate b_items (0 : Int)
      match fill_menu_loop cfg bl b_items fuel { a := a, max_i := -1, top := params.menu.top } with
      | none => none
      | some st => some (0, { params with menu := { params.menu with top := st.top } })
    else some (0, params)

/-- Lines 1225-1228 of `main`: the registry index passed to `pre_start_kernel` and
`start_kernel` for the id `rc` returned by the main loop. -/
def main_choice (cfg : Config) (rc : Int) : Option Int :=
  if rc ≥ cfg.A_DEVICES then some (rc - cfg.A_DEVICES) else none

/-! ## UBI handling -/

/-- Lines 171-176 of `check_for_ubi`, repeated as lines 557-562 of `scan_devices`: the
string left in `str_mtd_id`.  `device + strlen(device) - 2` is the tail holding the last two
characters (for a name shorter than that the tail starts at its first character). -/
def mtd_id (device : CStr) : CStr :=
  let str_mtd_id : CStr := []
  if isdigit (atoi (device.drop (device.length - 2))) then
    let str_mtd_id := strcpy str_mtd_id (device.drop (device.length - 2))
    strcat str_mtd_id (device.drop (device.length - 1))
  else
    strcpy str_mtd_id (device.drop (device.length - 1))

/-- The size of the buffer `str_mtd_id` of `start_kernel` and `scan_devices`. -/
def sizeof_str_mtd_id : Nat := 3

/-- The size of the buffer `mount_dev` of `start_kernel` and `scan_devices`. -/
def sizeof_mount_dev : Nat := 16

/-- The size of the buffer `mount_fstype` of `start_kernel` and `scan_devices`. -/
def sizeof_mount_fstype : Nat := 16

/-- The constant `MAX_ARG_LEN`, the size of the buffer allocated for `cmdline_arg`. -/
def MAX_ARG_LEN : Nat := 256

/-- The output parameters and the return value of `check_for_ubi`. -/
structure ubi_result where
  rc : Int
  cmdline_arg : CStr
  mount_dev : CStr
  mount_fstype : CStr
  str_mtd_id : CStr
deriving DecidableEq

/-- The function `check_for_ubi`, for an item whose device and filesystem type are the
given strings.  The buffers are those of `start_kernel`, its only caller: `cmdline_arg` has
`MAX_ARG_LEN` bytes, `mount_dev` and `mount_fstype` have 16 and `str_mtd_id` has 3 (lines
171-176 leave `mtd_id device` in it).  The result is `none` when a write overruns its
buffer. -/
def check_for_ubi (cfg : Config) (env : Env) (device fstype : CStr)
    (cmdline_arg mount_dev mount_fstype : CStr)
    (str_ubirootdev str_ubimtd str_mtd_id str_ubimtd_off : CStr) : Option ubi_result :=
  if strncmp_eq fstype "ubi".toList 3 then do
    let str_mtd_id ← strcpy_buf sizeof_str_mtd_id str_mtd_id (mtd_id device)
    let u := env.find_attached_ubi_device str_mtd_id
    let mount_dev ← strcpy_buf sizeof_mount_dev mount_dev ("/dev/ubi".toList ++ fmt_d u)
    let mount_dev ← strcat_buf sizeof_mount_dev mount_dev "_0".toList
    let mount_fstype ← strcpy_buf sizeof_mount_fstype mount_fstype "ubifs".toList
    let cmdline_arg ← strcat_buf MAX_ARG_LEN cmdline_arg str_ubirootdev
    let cmdline_arg ← strcat_buf MAX_ARG_LEN cmdline_arg "_0".toList
    let cmdline_arg ← strcat_buf MAX_ARG_LEN cmdline_arg str_ubimtd
    let cmdline_arg ← strcat_buf MAX_ARG_LEN cmdline_arg str_mtd_id
    let cmdline_arg ← (if cfg.UBI_VID_HDR_OFFSET.isSome then
      strcat_buf MAX_ARG_LEN cmdline_arg str_ubimtd_off else some cmdline_arg)
    pure { rc := 1, cmdline_arg := cmdline_arg, mount_dev := mount_dev,
           mount_fstype := mount_fstype, str_mtd_id := str_mtd_id }
  else
    some { rc := 0, cmdline_arg := cmdline_arg, mount_dev := mount_dev,
           mount_fstype := mount_fstype, str_mtd_id := str_mtd_id }

/-- The raw device `struct device_t` returned by `devscan_next`. -/
structure device_t where
  device : CStr
  fstype : CStr
  blocks : Nat
deriving DecidableEq

/-- Lines 550-572 of `scan_devices`: the pair `(mount_dev, mount_fstype)` passed to `mount`
for the device `dev`, `none` when a write overruns `mount_dev[16]`, `mount_fstype[16]` or
`str_mtd_id[3]` (lines 557-562 leave `mtd_id dev.device` in the latter). -/
def scan_devices_mount (env : Env) (dev : device_t) : Option (CStr × CStr) := do
  let mount_dev ← strcpy_buf sizeof_mount_dev [] dev.device
  let mount_fstype ← strcpy_buf sizeof_mount_fstype [] dev.fstype
  if strncmp_eq dev.fstype "ubi".toList 3 then do
    let str_mtd_id ← strcpy_buf sizeof_str_mtd_id [] (mtd_id dev.device)
    let n := env.ubi_attach str_mtd_id
    let mount_dev ← strcpy_buf sizeof_mount_dev mount_dev ("/dev/ubi".toList ++ fmt_d n)
    let mount_dev ← strcat_buf sizeof_mount_dev mount_dev "_0".toList
    let mount_fstype ← strcpy_buf sizeof_mount_fstype mount_fstype "ubifs".toList
    pure (mount_dev, mount_fstype)
  else pure (mount_dev, mount_fstype)

/-- Lines 228-241 of `pre_start_kernel`: the pair `(mount_dev, mount_fstype)` passed to the
first `mount`, when the item has a pre-boot hook; a buffer that was not written is `none`. -/
def pre_start_kernel_mount (item : boot_item_t) : Option (Option CStr × Option CStr) :=
  match item.exec_cmdline with
  | none => none
  | some _ =>
    match item.device with
    | some device =>
      let mount_dev := strcpy [] device
      match item.fstype with
      | some fstype => some (some mount_dev, some (strcpy [] fstype))
      | none => some (some mount_dev, none)
    | none => some (none, none)

/-! ## start_kernel -/

/-- The constant `MAX_LOAD_ARGV_NR`. -/
def MAX_LOAD_ARGV_NR : Nat := 12 + 1

/-- The constant `MAX_EXEC_ARGV_NR`. -/
def MAX_EXEC_ARGV_NR : Nat := 3 + 1

/-- An argument vector: its slots, `none` for `NULL`. -/
abbrev Argv := List (Option CStr)

/-- The vector returned by `calloc(n, sizeof(char * ))`. -/
def calloc (n : Nat) : Argv := List.replicate n none

/-- The assignment `argv[idx] = arg`; `none` when `idx` is not a slot of the vector. -/
def argv_set (argv : Argv) (idx : Nat) (arg : CStr) : Option Argv :=
  if idx < argv.length then some (argv.set idx (some arg)) else none

/-- The statements `argv[idx] = arg; idx++;` on the pair `(argv, idx)`. -/
def argv_put (s : Argv × Nat) (arg : CStr) : Option (Argv × Nat) :=
  match argv_set s.1 s.2 arg with
  | some argv => some (argv, s.2 + 1)
  | none => none

/-- The function `add_cmd_option` on the pair `(load_argv, *idx)`. -/
def add_cmd_option (cfg : Config) (env : Env) (s : Argv × Nat) (start : Option CStr)
    (path : Option CStr) : Option (Argv × Nat) :=
  let mount_point := cfg.MOUNTPOINT
  match path with
  | none => some s
  | some path =>
    let arg : CStr := []
    let arg := match start with
      | some start => strcpy arg start
      | none => arg
    let arg := strcat arg path
    let arg := match env.readlink path with
      | some buf =>
        let len := buf.length
        if buf.head? = some '/' then
          let arg := memset_nul arg len
          let arg := match start with
            | some start => strcpy arg start
            | none => arg
          let arg := strcat arg mount_point
          strcat arg buf
        else arg
      | none => arg
    argv_put s arg

/-- The state of `start_kernel` when both argument vectors are filled (line 460). -/
structure load_state where
  load_argv : Argv
  exec_argv : Argv
  idx : Nat
  mount_dev : Option CStr
  mount_fstype : Option CStr
  cmdline_arg : Option CStr
deriving DecidableEq

/-- Lines 335-398 of `start_kernel`: both vectors are allocated and the arguments whose
text is known at build time are stored; returns `(load_argv, idx)` and `exec_argv`. -/
def start_kernel_flags (cfg : Config) : Option ((Argv × Nat) × Argv) := do
  let load_argv := calloc MAX_LOAD_ARGV_NR
  let exec_argv := calloc MAX_EXEC_ARGV_NR
  let idx := 0
  let loader := if cfg.USE_HOST_DEBUG then "/bin/echo".toList else cfg.KEXEC_PATH
  let load_argv ← argv_set load_argv idx loader
  let exec_argv ← argv_set exec_argv idx loader
  let idx := idx + 1
  let load_argv ← argv_set load_argv idx "-d".toList
  let exec_argv ← argv_set exec_argv idx "-e".toList
  let idx := idx + 1
  let s : Argv × Nat := (load_argv, idx)
  let s ← (match cfg.MEM_MIN with
    | some m => argv_put s ("--mem-min=0x".toList ++ fmt_08x m)
    | none => some s)
  let s ← (match cfg.MEM_MAX with
    | some m => argv_put s ("--mem-max==0x".toList ++ fmt_08x m)
    | none => some s)
  let s ← argv_put s (if cfg.USE_HARDBOOT then "--load-hardboot".toList else "-l".toList)
  let s ← (if cfg.USE_ATAGS then argv_put s "--atags".toList else some s)
  let s ← (if cfg.USE_NO_DTB then argv_put s "--no-dtb".toList else some s)
  let s ← (if cfg.USE_NO_CHECKS then argv_put s "-i".toList else some s)
  let s ← (if cfg.USE_KEXEC_FILE_SYSCALL then argv_put s "-s".toList
    else if cfg.USE_KEXEC_SYSCALL then argv_put s "-c".toList
    else some s)
  pure (s, exec_argv)

/-- Lines 424-434 of `start_kernel`: the root device and the filesystem type are added to
`cmdline_arg` for an item with a filesystem type; returns `cmdline_arg` and the mount pair
left by `check_for_ubi`. -/
def start_kernel_root (cfg : Config) (env : Env) (item : boot_item_t)
    (device fstype : CStr) (cmdline_arg mount_dev mount_fstype : CStr) :
    Option (CStr × CStr × CStr) :=
  let str_ubimtd_off : CStr := match cfg.UBI_VID_HDR_OFFSET with
    | some off => ",".toList ++ off
    | none => []
  match item.fstype with
  | some _ => do
    let r ← check_for_ubi cfg env device fstype cmdline_arg mount_dev mount_fstype
      "ubi0".toList " ubi.mtd=".toList [] str_ubimtd_off
    let cmdline_arg ← (if r.rc = 0 then strcat_buf MAX_ARG_LEN r.cmdline_arg device
      else some r.cmdline_arg)
    let cmdline_arg ← strcat_buf MAX_ARG_LEN cmdline_arg " rootfstype=".toList
    let cmdline_arg ← strcat_buf MAX_ARG_LEN cmdline_arg r.mount_fstype
    pure (cmdline_arg, r.mount_dev, r.mount_fstype)
  | none => some (cmdline_arg, mount_dev, mount_fstype)

/-- The statements `strcat(cmdline_arg, tag); strcat(cmdline_arg, value);` of lines 439-451,
executed when `value` is not `NULL`. -/
def start_kernel_tag (cmdline_arg tag : CStr) (value : Option CStr) : Option CStr :=
  match value with
  | some value => do
    let cmdline_arg ← strcat_buf MAX_ARG_LEN cmdline_arg tag
    strcat_buf MAX_ARG_LEN cmdline_arg value
  | none => some cmdline_arg

/-- Lines 416-451 of `start_kernel`: the text built in `cmdline_arg`, a buffer of
`MAX_ARG_LEN` bytes, for an item without explicit command line, with the mount pair left
by `check_for_ubi`; `none` when a write overruns its buffer. -/
def start_kernel_cmdline (cfg : Config) (env : Env) (pcfg : cfgdata_t) (item : boot_item_t)
    (device fstype : CStr) (mount_dev mount_fstype : CStr) : Option (CStr × CStr × CStr) := do
  let str_cmdline_start := "--command-line=".toList
  let str_mtdparts := " mtdparts=".toList
  let str_fbcon := " fbcon=".toList
  let cmdline_arg ← strcpy_buf MAX_ARG_LEN [] str_cmdline_start
  let cmdline_arg ← strcat_buf MAX_ARG_LEN cmdline_arg "root=".toList
  let r ← start_kernel_root cfg env item device fstype cmdline_arg mount_dev mount_fstype
  let cmdline_arg ← strcat_buf MAX_ARG_LEN r.1 " rootwait".toList
  let cmdline_arg ← start_kernel_tag cmdline_arg str_mtdparts pcfg.mtdparts
  let cmdline_arg ← start_kernel_tag cmdline_arg str_fbcon pcfg.fbcon
  let cmdline_arg ← start_kernel_tag cmdline_arg " ".toList item.cmdline_append
  pure (cmdline_arg, r.2.1, r.2.2)

/-- Lines 404-455 of `start_kernel`: the `--command-line` argument is stored and the
mount pair is set; returns `(load_argv, idx)`, `mount_dev`, `mount_fstype` and
`cmdline_arg`.  Copying a `NULL` filesystem type (line 410) has no defined result, nor has
a copy that overruns `mount_dev[16]` or `mount_fstype[16]`. -/
def start_kernel_item (cfg : Config) (env : Env) (pcfg : cfgdata_t) (item : boot_item_t)
    (s : Argv × Nat) : Option ((Argv × Nat) × Option CStr × Option CStr × Option CStr) :=
  match item.device with
  | none => some (s, none, none, none)
  | some device =>
    match strcpy_buf sizeof_mount_dev [] device with
    | none => none
    | some mount_dev =>
      match item.fstype with
      | none => none
      | some fstype =>
        match strcpy_buf sizeof_mount_fstype [] fstype with
        | none => none
        | some mount_fstype =>
          match item.cmdline with
          | some cmdline =>
            match add_cmd_option cfg env s (some "--command-line=".toList) (some cmdline) with
            | some s => some (s, some mount_dev, some mount_fstype, none)
            | none => none
          | none =>
            match start_kernel_cmdline cfg env pcfg item device fstype mount_dev
              mount_fstype with
            | none => none
            | some r =>
              match argv_put s r.1 with
              | some s => some (s, some r.2.1, some r.2.2, some r.1)
              | none => none

/-- Lines 335-459 of `start_kernel`: the argument vectors and the mount pair for `item`. -/
def start_kernel_args (cfg : Config) (env : Env) (pcfg : cfgdata_t) (item : boot_item_t) :
    Option load_state :=
  match start_kernel_flags cfg with
  | none => none
  | some (s, exec_argv) =>
    match start_kernel_item cfg env pcfg item s with
    | none => none
    | some (s, mount_dev, mount_fstype, cmdline_arg) =>
      match add_cmd_option cfg env s (some "--dtb=".toList) item.dtbpath with
      | none => none
      | some s =>
        match add_cmd_option cfg env s (some "--initrd=".toList) item.initrd with
        | none => none
        | some s =>
          match add_cmd_option cfg env s none (some item.kernelpath) with
          | none => none
          | some s =>
            some { load_argv := s.1, exec_argv := exec_argv, idx := s.2,
                   mount_dev := mount_dev, mount_fstype := mount_fstype,
                   cmdline_arg := cmdline_arg }

/-- Lines 405-434 and 466 of `start_kernel`: the pair `(mount_dev, mount_fstype)` passed to
`mount`. -/
def start_kernel_mount (cfg : Config) (env : Env) (pcfg : cfgdata_t) (item : boot_item_t) :
    Option (Option CStr × Option CStr) :=
  (start_kernel_args cfg env pcfg item).map (fun st => (st.mount_dev, st.mount_fstype))

/-! ## System calls -/

/-- The result of `stat("/proc/sys/net", ...)`. -/
inductive stat_result where
  | found
  | enoent
  | failed
deriving DecidableEq, Repr

/-- A call made by `kexecboot.c` that acts on the machine, with its outcome (`ok` is false
when the call returns `-1`).  A buffer that was never written is `none`. -/
inductive Event where
  | devscan_next
  | mount (source : Option CStr) (target : CStr) (fstype : Option CStr) (bind : Bool)
      (ok : Bool)
  | umount (target : CStr) (ok : Bool)
  | fexecw (argv : Argv) (ok : Bool)
  | fexecwstr (argv : List CStr) (root : CStr) (ok : Bool)
  | stat (r : stat_result)
  | execve (argv : Argv)
  | exit (code : Int)
deriving DecidableEq

/-- How a function that may terminate the process ends: it returns, the process exits, or
the process image is replaced by `execve`. -/
inductive Termination where
  | returned
  | exited (code : Int)
  | replaced
deriving DecidableEq, Repr

/-! ## scan_devices -/

/-- A configuration section `kx_cfg_section` found by `get_bootinfo`. -/
structure kx_cfg_section where
  label : Option CStr
  kernelpath : CStr
  dtbpath : Option CStr
  initrd : Option CStr
  cmdline : Option CStr
  cmdline_append : Option CStr
  exec_cmdline : Option CStr
  priority : Int
deriving DecidableEq

/-- One turn of the loop of `scan_devices`, as the machine answers it: the device returned by
`devscan_next` (`none` when it returns an error), whether `mount` succeeds, the sections
found by `get_bootinfo` (`none` when it returns `-1`) and whether `umount` succeeds. -/
structure probe where
  dev : Option device_t
  mount_ok : Bool
  bootinfo : Option (List kx_cfg_section)
  umount_ok : Bool
deriving DecidableEq

/-- Modelled from the spec: `addto_bootcfg` of devicescan.c, which is not among the sources.
It appends one candidate per section, with the device, filesystem type and size of the
scanned device copied in. -/
def addto_bootcfg (bootconf : bootconf_t) (dev : device_t) (cfgdata : List kx_cfg_section) :
    bootconf_t :=
  { list := bootconf.list ++ cfgdata.map (fun sc =>
      { device := some dev.device, fstype := some dev.fstype, blocks := dev.blocks,
        label := sc.label, kernelpath := sc.kernelpath, dtbpath := sc.dtbpath,
        initrd := sc.initrd, cmdline := sc.cmdline, cmdline_append := sc.cmdline_append,
        exec_cmdline := sc.exec_cmdline, priority := sc.priority }) }

/-- The loop of `scan_devices` (lines 544-633) over the answers of the enumerator up to its
end of file; returns the registry and the calls made, in order.  When a copy overruns
`mount_dev`, `mount_fstype` or `str_mtd_id` the strings passed to `mount` are not defined
(`none` in the call); the turn is followed on with the answers of the machine. -/
def scan_devices_loop (cfg : Config) (env : Env) :
    List probe → bootconf_t → bootconf_t × List Event
  | [], bootconf => (bootconf, [Event.devscan_next])
  | p :: rest, bootconf =>
    match p.dev with
    | none =>
      let r := scan_devices_loop cfg env rest bootconf
      (r.1, Event.devscan_next :: r.2)
    | some dev =>
      let m := scan_devices_mount env dev
      let mount_dev := m.map Prod.fst
      let mount_fstype := m.map Prod.snd
      if p.mount_ok = false then
        let r := scan_devices_loop cfg env rest bootconf
        (r.1, Event.devscan_next
          :: Event.mount mount_dev cfg.MOUNTPOINT mount_fstype false false :: r.2)
      else
        let rc := p.bootinfo
        let bootconf :=
          if p.umount_ok = false then bootconf
          else match rc with
            | none => bootconf
            | some cfgdata => addto_bootcfg bootconf dev cfgdata
        let r := scan_devices_loop cfg env rest bootconf
        (r.1, Event.devscan_next
          :: Event.mount mount_dev cfg.MOUNTPOINT mount_fstype false true
          :: Event.umount cfg.MOUNTPOINT p.umount_ok :: r.2)

/-- The function `scan_devices`: `devscan` is `none` when `devscan_open` fails; returns the
return value, the parameters and the calls made. -/
def scan_devices (cfg : Config) (env : Env) (devscan : Option (List probe))
    (params : params_t) : Int × params_t × List Event :=
  let bootconf : bootconf_t := { list := [] }
  match devscan with
  | none => (-1, params, [])
  | some probes =>
    let r := scan_devices_loop cfg env probes bootconf
    (0, { params with bootcfg := some r.1 }, r.2)

/-! ## pre_start_kernel and the launch -/

/-- What the hook leaves in `cfgdata.current` after `parse_exec_cmdline`. -/
structure hook_section where
  dtbpath : Option CStr
  cmdline_append : Option CStr
deriving DecidableEq

/-- The answers of the machine to `pre_start_kernel`: whether the two `mount` calls and the
two `umount` calls succeed, the words `buildargv` makes of the hook command, the standard
output of the hook (`none` when `fexecwstr` returns `-1`) and what `parse_exec_cmdline`
reads from it. -/
structure hook_env where
  mount_ok : Bool
  bind_ok : Bool
  buildargv : CStr → List CStr
  hook_stdout : Option CStr
  parse_exec_cmdline : CStr → hook_section
  umount_dev_ok : Bool
  umount_ok : Bool

/-- The item after the update of lines 277-292, with the argument of the `malloc` of line
282 and the number of bytes lines 286-288 store in that buffer, terminator included, when
they are executed.  `strlen` of a `NULL` suffix has no defined result. -/
structure hook_update where
  item : boot_item_t
  malloc_size : Option Nat
  stored : Option Nat
deriving DecidableEq

/-- Lines 277-292 of `pre_start_kernel`: the item is updated from the parsed hook output. -/
def pre_start_kernel_update (item : boot_item_t) (current : hook_section) :
    Option hook_update :=
  let item := match current.dtbpath with
    | some dtbpath => { item with dtbpath := some dtbpath }
    | none => item
  match current.cmdline_append with
  | none => some { item := item, malloc_size := none, stored := none }
  | some cmdline_append =>
    match item.cmdline_append with
    | none => none
    | some old =>
      let size := old.length + cmdline_append.length + 1
      let p := strcpy [] old
      let p := strcat p " ".toList
      let p := strcat p cmdline_append
      some { item := { item with cmdline_append := some p },
             malloc_size := some size, stored := some (p.length + 1) }

/-- The result of `pre_start_kernel`: the calls made, how it ends, and the item. -/
structure hook_result where
  trace : List Event
  term : Termination
  update : hook_update
deriving DecidableEq

/-- The function `pre_start_kernel` for the chosen item. -/
def pre_start_kernel (cfg : Config) (henv : hook_env) (item : boot_item_t) :
    Option hook_result :=
  let mount_point := cfg.MOUNTPOINT
  let mount_point_dev := cfg.MOUNTPOINT ++ "/dev".toList
  let same : hook_update := { item := item, malloc_size := none, stored := none }
  match item.exec_cmdline, pre_start_kernel_mount item with
  | some exec_cmdline, some (mount_dev, mount_fstype) =>
    let e1 := Event.mount mount_dev mount_point mount_fstype false henv.mount_ok
    if henv.mount_ok = false then
      some { trace := [e1, Event.exit (-1)], term := Termination.exited (-1), update := same }
    else
      let mount_dev := strcpy [] "/dev".toList
      let e2 := Event.mount (some mount_dev) mount_point_dev mount_fstype true henv.bind_ok
      if henv.bind_ok = false then
        some { trace := [e1, e2, Event.exit (-1)], term := Termination.exited (-1),
               update := same }
      else
        let exec_str := strcpy [] exec_cmdline
        let load_argv := henv.buildargv exec_str
        match henv.hook_stdout with
        | none =>
          some { trace := [e1, e2, Event.fexecwstr load_argv cfg.MOUNTPOINT false,
                           Event.exit (-1)],
                 term := Termination.exited (-1), update := same }
        | some stdout_str =>
          match pre_start_kernel_update item (henv.parse_exec_cmdline stdout_str) with
          | none => none
          | some u =>
            some { trace := [e1, e2, Event.fexecwstr load_argv cfg.MOUNTPOINT true,
                             Event.umount mount_point_dev henv.umount_dev_ok,
                             Event.umount mount_point henv.umount_ok],
                   term := Termination.returned, update := u }
  | _, _ => some { trace := [], term := Termination.returned, update := same }

/-- The answers of the machine to `start_kernel`: whether `mount`, the loader and `umount`
succeed, the result of `stat`, and whether `execve` replaces the process. -/
structure launch_env where
  mount_ok : Bool
  load_ok : Bool
  umount_ok : Bool
  stat_net : stat_result
  exec_ok : Bool
deriving DecidableEq

/-- The function `start_kernel` for the chosen item: the calls made and how it ends.  When
`execve` returns, lines 500-507 free every slot of both vectors: a synthesized
`cmdline_arg`, already freed at line 481, is freed again through its slot of `load_argv`,
and the literal `"-x"` stored at line 487 is passed to `free`; neither has a defined
result. -/
def start_kernel (cfg : Config) (env : Env) (lenv : launch_env) (pcfg : cfgdata_t)
    (item : boot_item_t) : Option (List Event × Termination) :=
  let mount_point := cfg.MOUNTPOINT
  match start_kernel_args cfg env pcfg item with
  | none => none
  | some st =>
    let e1 := Event.mount st.mount_dev mount_point st.mount_fstype false lenv.mount_ok
    if lenv.mount_ok = false then
      some ([e1, Event.exit (-1)], Termination.exited (-1))
    else
      let e2 := Event.fexecw st.load_argv lenv.load_ok
      if lenv.load_ok = false then
        some ([e1, e2, Event.exit (-1)], Termination.exited (-1))
      else
        let e3 := Event.umount mount_point lenv.umount_ok
        let exec_argv :=
          if lenv.stat_net = stat_result.enoent then st.exec_argv.set 2 (some "-x".toList)
          else st.exec_argv
        let e4 := Event.stat lenv.stat_net
        let e5 := Event.execve exec_argv
        if lenv.exec_ok then some ([e1, e2, e3, e4, e5], Termination.replaced)
        else if st.cmdline_arg.isSome ∨ lenv.stat_net = stat_result.enoent then none
        else some ([e1, e2, e3, e4, e5], Termination.returned)

/-- Lines 1225-1232 of `main`: for a selected candidate `pre_start_kernel` and
`start_kernel` run in turn, and whatever returns ends in `exit(-1)`. -/
def main_launch (cfg : Config) (env : Env) (henv : hook_env) (lenv : launch_env)
    (pcfg : cfgdata_t) (item : boot_item_t) : Option (List Event × Termination) :=
  match pre_start_kernel cfg henv item with
  | none => none
  | some h =>
    match h.term with
    | Termination.returned =>
      match start_kernel cfg env lenv pcfg h.update.item with
      | none => none
      | some (trace, Termination.returned) =>
        some (h.trace ++ trace ++ [Event.exit (-1)], Termination.exited (-1))
      | some (trace, term) => some (h.trace ++ trace, term)
    | term => some (h.trace, term)

/-! ## The menu -/

/-- The action codes of menu.h that `kexecboot.c` names (`A_DEVICES` is in `Config`) and the
build options of `process_ctx_menu`. -/
structure Actions where
  A_ERROR : Int
  A_UP : Int
  A_DOWN : Int
  A_SELECT : Int
  A_SUBMENU : Int
  A_PARENTMENU : Int
  A_REBOOT : Int
  A_SHUTDOWN : Int
  A_RESCAN : Int
  A_DEBUG : Int
  A_EXIT : Int
  A_TIMEOUT : Int
  A_KEY0 : Int
  A_KEY9 : Int
  USE_NUMKEYS : Bool
  USE_TIMEOUT : Bool

/-- The level a level pointer designates: 0 is the top level, 1 the system level. -/
def kx_menu.level (menu : kx_menu) (i : Nat) : Option kx_menu_level :=
  match i with
  | 0 => some menu.top
  | 1 => menu.system
  | _ => none

/-- The menu with level `i` replaced. -/
def kx_menu.set_level (menu : kx_menu) (i : Nat) (ml : kx_menu_level) : kx_menu :=
  match i with
  | 0 => { menu with top := ml }
  | 1 => { menu with system := some ml }
  | _ => menu

/-- The entry read through the stored pointer `ml->current`: the entry number `current_no`;
reading has no defined result (`none`) when the pointer dangles or there is no such
entry. -/
def kx_menu_level.current (ml : kx_menu_level) : Option kx_menu_item :=
  if ml.current_freed then none else ml.list[ml.current_no]?

/-- Modelled from the spec: `menu_item_select` of menu.c, which is not among the sources.
It moves the cursor of the active level: to the first entry for direction 0, to the
previous or next entry for -1 and 1, wrapping at the ends (nothing moves on a level of one
entry) and stores the pointer to that entry.  The active level pointer is read, so `NULL`
has no defined result. -/
def menu_item_select (menu : kx_menu) (direction : Int) : Option kx_menu :=
  match menu.current with
  | none => none
  | some i =>
    match menu.level i with
    | none => none
    | some ml =>
      let count := ml.list.length
      let no :=
        if direction = 0 then 0
        else if direction = -1 then
          (if ml.current_no > 0 then ml.current_no - 1 else count - 1)
        else if direction = 1 then
          (if ml.current_no + 1 < count then ml.current_no + 1 else 0)
        else ml.current_no
      some (menu.set_level i { ml with current_no := no, current_freed := false })

/-- Modelled from the spec: `menu_item_select_by_no` of menu.c, which is not among the
sources.  It moves the cursor of the top level to entry `no` when that entry exists and
returns `none`, for the value `-1`, when it does not. -/
def menu_item_select_by_no (menu : kx_menu) (no : Int) : Option kx_menu :=
  if 0 ≤ no ∧ no.toNat < menu.top.list.length then
    some { menu with top := { menu.top with current_no := no.toNat, current_freed := false } }
  else none

/-- The function `build_menu`, with `initmode` as it is when `main` calls it. -/
def build_menu (acts : Actions) (initmode : Bool) : Option kx_menu :=
  let top : kx_menu_level := { parent := none, list := [] }
  let ml : kx_menu_level := { parent := some 0, list := [] }
  let top := menu_item_add top acts.A_SUBMENU "System menu".toList none (some 1)
  let ml := menu_item_add ml acts.A_PARENTMENU "Back".toList none none
  let ml := menu_item_add ml acts.A_RESCAN "Rescan".toList none none
  let ml := menu_item_add ml acts.A_DEBUG "Show debug info".toList none none
  let ml := menu_item_add ml acts.A_REBOOT "Reboot".toList none none
  let ml := menu_item_add ml acts.A_SHUTDOWN "Shutdown".toList none none
  let ml := if initmode = false then menu_item_add ml acts.A_EXIT "Exit".toList none none else ml
  let menu : kx_menu := { top := top, system := some ml, current := some 0 }
  menu_item_select menu 0

/-- The answers of the machine to a rescan: what the enumerator and the probes return, and
whether the allocations of `fill_menu` succeed. -/
structure rescan_env where
  devscan : Option (List probe)
  alloc_ok : Bool

/-- The function `fill_menu` with the outcome of its allocations: when the registry has
items and an allocation fails it returns `-1` through `dirty_exit` (lines 741-751, 821).
The loop is given one more turn than the registry has items. -/
def fill_menu_alloc (cfg : Config) (alloc_ok : Bool) (params : params_t) :
    Option (Int × params_t) :=
  match params.bootcfg with
  | none => fill_menu cfg 1 params
  | some bl =>
    if bl.fill > 0 ∧ alloc_ok = false then some (-1, params)
    else fill_menu cfg (bl.fill + 1) params

/-- The function `do_rescan`: the entries of the top level after the first are freed and its
count is set to 1, the registry is discarded, and `scan_devices` and `fill_menu` run again.
The pointer `top->current` is left as it is, so it dangles when it was set to one of the
freed entries.  With `USE_ICONS` lines 894-896 read `params->bootcfg->fill`, which has no
defined result when the registry pointer is `NULL`; `free_bootcfg` of devicescan.c, which
is not among the sources, is taken to accept a `NULL` registry. -/
def do_rescan (cfg : Config) (env : Env) (renv : rescan_env) (params : params_t) :
    Option (Int × params_t) :=
  let top := params.menu.top
  let top := { top with list := top.list.take 1,
                        current_freed := top.current_freed || decide (1 ≤ top.current_no) }
  let params := { params with menu := { params.menu with top := top } }
  if cfg.USE_ICONS = true ∧ params.bootcfg = none then none
  else
    let params := { params with bootcfg := none }
    let params := (scan_devices cfg env renv.devscan params).2.1
    fill_menu_alloc cfg renv.alloc_ok params

/-- Lines 916-929 of `process_ctx_menu`: the numeric keys and the resolution of the action.
Returns `some none` for the early `return 1`, and otherwise the menu and `menu_action`. -/
def process_ctx_menu_action (acts : Actions) (menu : kx_menu) (action : Int) :
    Option (Option (kx_menu × Int)) :=
  let keyed : Option (kx_menu × Int) :=
    if acts.USE_NUMKEYS = true ∧ action ≥ acts.A_KEY0 ∧ action ≤ acts.A_KEY9 then
      match menu_item_select_by_no menu (action - acts.A_KEY0) with
      | none => none
      | some menu => some (menu, acts.A_SELECT)
    else some (menu, action)
  match keyed with
  | none => some none
  | some (menu, action) =>
    if acts.A_SELECT = action then
      match menu.current with
      | none => none
      | some i =>
        match menu.level i with
        | none => none
        | some ml =>
          match ml.current with
          | none => none
          | some mi => some (some (menu, mi.id))
    else some (some (menu, action))

/-- The function `process_ctx_menu`: returns its return value and the parameters.  The
messages shown and the `sync`, `reboot` and `sleep` calls of the reboot and shutdown cases
leave the parameters as they are; the value is the one returned after them. -/
def process_ctx_menu (cfg : Config) (acts : Actions) (initmode : Bool) (env : Env)
    (renv : rescan_env) (params : params_t) (action : Int) : Option (Int × params_t) :=
  match process_ctx_menu_action acts params.menu action with
  | none => none
  | some none => some (1, params)
  | some (some (menu, menu_action)) =>
    let params := { params with menu := menu }
    let rc : Int := 1
    if menu_action = acts.A_UP then
      (menu_item_select menu (-1)).map (fun menu => (rc, { params with menu := menu }))
    else if menu_action = acts.A_DOWN then
      (menu_item_select menu 1).map (fun menu => (rc, { params with menu := menu }))
    else if menu_action = acts.A_SUBMENU then
      match menu.current with
      | none => none
      | some i =>
        match menu.level i with
        | none => none
        | some ml =>
          match ml.current with
          | none => none
          | some mi => some (rc, { params with menu := { menu with current := mi.submenu } })
    else if menu_action = acts.A_PARENTMENU then
      match menu.current with
      | none => none
      | some i =>
        match menu.level i with
        | none => none
        | some ml => some (rc, { params with menu := { menu with current := ml.parent } })
    else if menu_action = acts.A_REBOOT then some (rc, params)
    else if menu_action = acts.A_SHUTDOWN then some (rc, params)
    else if menu_action = acts.A_RESCAN then
      match do_rescan cfg env renv params with
      | none => none
      | some (r, params) => if r = -1 then some (-1, params) else some (rc, params)
    else if menu_action = acts.A_DEBUG then
      some (rc, { params with context := kx_context.KX_CTX_TEXTVIEW })
    else if menu_action = acts.A_EXIT then
      if initmode then some (rc, params) else some (-1, params)
    else if menu_action = acts.A_ERROR then some (-1, params)
    else if acts.USE_TIMEOUT = true ∧ menu_action = acts.A_TIMEOUT then
      let menu := { menu with current := some 0 }
      if menu.top.list.length > 1 then
        match menu_item_select menu 0 with
        | none => none
        | some menu =>
          match menu_item_select menu 1 with
          | none => none
          | some menu => some (0, { params with menu := menu })
      else some (rc, { params with menu := menu })
    else
      some (if menu_action ≥ cfg.A_DEVICES then 0 else rc, params)

/-- The menu after a sequence of actions, each handled by `process_ctx_menu`. -/
def process_ctx_menu_run (cfg : Config) (acts : Actions) (initmode : Bool) (env : Env)
    (renv : rescan_env) : params_t → List Int → Option params_t
  | params, [] => some params
  | params, action :: rest =>
    match process_ctx_menu cfg acts initmode env renv params action with
    | none => none
    | some (_, params) => process_ctx_menu_run cfg acts initmode env renv params rest

/-! ## Specification vocabulary -/

/-- The entry that lines 773-784 of `fill_menu` add for the item `p.2` found at index
`p.1` of the registry. -/
def fill_menu_entry (cfg : Config) (p : Nat × boot_item_t) : kx_menu_item :=
  { id := cfg.A_DEVICES + (p.1 : Int),
    label := match p.2.label with
      | some l => l
      | none => p.2.kernelpath.drop cfg.MOUNTPOINT.length,
    description := some (snprintf sizeof_desc
      (fmt_s p.2.device ++ " ".toList ++ fmt_s p.2.fstype ++ " ".toList
        ++ fmt_llu (p.2.blocks / 1024) ++ "Mb".toList)),
    submenu := none }

/-- The order in which `fill_menu` places candidates: priority never increases, and among
equal priorities the registry index increases. -/
def PlacedBefore (p q : Nat × boot_item_t) : Prop :=
  q.2.priority ≤ p.2.priority ∧ (p.2.priority = q.2.priority → p.1 < q.1)

/-- The invariant of the outer loop of `fill_menu`: `pl` lists the items placed so far, in
order, with their registry indices. -/
structure FillInv (cfg : Config) (bl : bootconf_t) (top0 : kx_menu_level)
    (st : fill_state) (pl : List (Nat × boot_item_t)) : Prop where
  valid : ∀ p ∈ pl, bl.list[p.1]? = some p.2
  len : st.a.length = bl.list.length
  marked : ∀ i, i < bl.list.length → (st.a[i]? = some 0 ↔ i ∉ pl.map Prod.fst)
  nodup : (pl.map Prod.fst).Nodup
  nonneg : ∀ p ∈ pl, 0 ≤ p.2.priority
  dom : ∀ p ∈ pl, ∀ y t, bl.list[y]? = some t → y ∉ pl.map Prod.fst → PlacedBefore p (y, t)
  sorted : pl.Pairwise PlacedBefore
  top : st.top = { top0 with list := top0.list ++ pl.map (fill_menu_entry cfg) }

/-- The argument `add_cmd_option` emits for a non-null `path` with the optional flag
prefix `start`. -/
def path_arg (cfg : Config) (env : Env) (start : Option CStr) (path : CStr) : CStr :=
  match env.readlink path with
  | some buf =>
    if buf.head? = some '/' then start.getD [] ++ cfg.MOUNTPOINT ++ buf
    else start.getD [] ++ path
  | none => start.getD [] ++ path

/-- The pair `(argv, idx)` holds exactly the arguments `ws`, in slots `0 .. idx`, of a
vector of `MAX_LOAD_ARGV_NR` slots whose other slots are `NULL`; `k` bounds their number. -/
def ArgvHolds (s : Argv × Nat) (ws : List CStr) (k : Nat) : Prop :=
  s.1 = ws.map some ++ List.replicate (MAX_LOAD_ARGV_NR - ws.length) none ∧
  s.2 = ws.length ∧ ws.length ≤ k

/-- The arguments at the head of the load vector: loader path, `-d`, the memory bounds, the
load mode and the optional flags, in the order of lines 346-398. -/
def load_flags (cfg : Config) : List CStr :=
  [if cfg.USE_HOST_DEBUG then "/bin/echo".toList else cfg.KEXEC_PATH, "-d".toList]
    ++ (cfg.MEM_MIN.map (fun m => "--mem-min=0x".toList ++ fmt_08x m)).toList
    ++ (cfg.MEM_MAX.map (fun m => "--mem-max==0x".toList ++ fmt_08x m)).toList
    ++ [if cfg.USE_HARDBOOT then "--load-hardboot".toList else "-l".toList]
    ++ (if cfg.USE_ATAGS then ["--atags".toList] else [])
    ++ (if cfg.USE_NO_DTB then ["--no-dtb".toList] else [])
    ++ (if cfg.USE_NO_CHECKS then ["-i".toList] else [])
    ++ (if cfg.USE_KEXEC_FILE_SYSCALL then ["-s".toList]
        else if cfg.USE_KEXEC_SYSCALL then ["-c".toList] else [])

/-- The text that follows `root=` in a synthesized command line. -/
def root_spec (cfg : Config) (device fstype : CStr) : CStr :=
  if strncmp_eq fstype "ubi".toList 3 then
    "ubi0_0 ubi.mtd=".toList ++ mtd_id device
      ++ (match cfg.UBI_VID_HDR_OFFSET with
          | some off => ",".toList ++ off
          | none => [])
  else device

/-- The filesystem type a candidate is mounted with: `ubifs` for a UBI candidate. -/
def effective_fstype (fstype : CStr) : CStr :=
  if strncmp_eq fstype "ubi".toList 3 then "ubifs".toList else fstype

/-- The command-line argument synthesized for a candidate without explicit command line. -/
def synth_cmdline (cfg : Config) (pcfg : cfgdata_t) (device fstype : CStr)
    (cmdline_append : Option CStr) : CStr :=
  "--command-line=".toList ++ "root=".toList ++ root_spec cfg device fstype
    ++ " rootfstype=".toList ++ effective_fstype fstype ++ " rootwait".toList
    ++ (match pcfg.mtdparts with
        | some m => " mtdparts=".toList ++ m
        | none => [])
    ++ (match pcfg.fbcon with
        | some f => " fbcon=".toList ++ f
        | none => [])
    ++ (match cmdline_append with
        | some a => " ".toList ++ a
        | none => [])

/-- The device mounted for a UBI candidate whose flash partition is attached as UBI
device `u`. -/
def ubi_mount_dev (u : Int) : CStr := "/dev/ubi".toList ++ fmt_d u ++ "_0".toList

/-- The text added to a command line for a tag whose value may be absent. -/
def tag_text (tag : CStr) : Option CStr → CStr
  | some v => tag ++ v
  | none => []

/-- The strings `start_kernel` writes for a candidate with the given device and filesystem
type fit their buffers: the device and the type fit `mount_dev[16]` and
`mount_fstype[16]`, and when the command line is synthesized its text fits the
`MAX_ARG_LEN` bytes of `cmdline_arg` and, for a UBI candidate, the partition id fits
`str_mtd_id[3]` and the UBI device name fits `mount_dev[16]`. -/
def launch_fits (cfg : Config) (env : Env) (pcfg : cfgdata_t) (item : boot_item_t)
    (device fstype : CStr) : Prop :=
  device.length < sizeof_mount_dev ∧ fstype.length < sizeof_mount_fstype ∧
  (item.cmdline = none →
    (synth_cmdline cfg pcfg device fstype item.cmdline_append).length < MAX_ARG_LEN ∧
    (strncmp_eq fstype "ubi".toList 3 = true →
      (mtd_id device).length < sizeof_str_mtd_id ∧
      (ubi_mount_dev (env.find_attached_ubi_device (mtd_id device))).length
        < sizeof_mount_dev))

instance (cfg : Config) (env : Env) (pcfg : cfgdata_t) (item : boot_item_t)
    (device fstype : CStr) : Decidable (launch_fits cfg env pcfg item device fstype) := by
  unfold launch_fits
  infer_instance

/-- The command-line argument of the load vector: the explicit command line passed through
`add_cmd_option`, or the synthesized one. -/
def cmdline_argument (cfg : Config) (env : Env) (pcfg : cfgdata_t) (item : boot_item_t)
    (device fstype : CStr) : CStr :=
  match item.cmdline with
  | some cmdline => path_arg cfg env (some "--command-line=".toList) cmdline
  | none => synth_cmdline cfg pcfg device fstype item.cmdline_append

/-- The load vector of a candidate with a device and a filesystem type. -/
def load_vector (cfg : Config) (env : Env) (pcfg : cfgdata_t) (item : boot_item_t)
    (device fstype : CStr) : List CStr :=
  load_flags cfg ++ [cmdline_argument cfg env pcfg item device fstype]
    ++ (item.dtbpath.map (path_arg cfg env (some "--dtb=".toList))).toList
    ++ (item.initrd.map (path_arg cfg env (some "--initrd=".toList))).toList
    ++ [path_arg cfg env none item.kernelpath]

/-- Replays the calls on the mount point `mp`, starting with the mount point held or not.
It is held from a successful `mount` until the `umount` that releases it: every `umount`
call when `by_call` is true, only a successful one otherwise.  The result is `none` when a
device is fetched or a `mount` is issued while the mount point is held, or an `umount` is
issued while it is not; otherwise it tells whether the mount point is held at the end. -/
def mount_discipline (mp : CStr) (by_call : Bool) : List Event → Bool → Option Bool
  | [], held => some held
  | Event.devscan_next :: es, held =>
    if held then none else mount_discipline mp by_call es held
  | Event.mount _ target _ _ ok :: es, held =>
    if target = mp then
      if held then none else mount_discipline mp by_call es ok
    else mount_discipline mp by_call es held
  | Event.umount target ok :: es, held =>
    if target = mp then
      if held then mount_discipline mp by_call es (!(by_call || ok)) else none
    else mount_discipline mp by_call es held
  | _ :: es, held => mount_discipline mp by_call es held

/-- Whether a call is an `umount` of `mp`. -/
def Event.is_umount (mp : CStr) : Event → Bool
  | Event.umount target _ => target == mp
  | _ => false

/-! ## Example inputs -/

/-- A build configuration with every optional load flag enabled. -/
def ex_cfg : Config :=
  { MOUNTPOINT := "/mnt".toList, KEXEC_PATH := "/usr/sbin/kexec".toList, A_DEVICES := 100,
    USE_HOST_DEBUG := false, MEM_MIN := some 256, MEM_MAX := some 4096,
    USE_HARDBOOT := false, USE_ATAGS := true, USE_NO_DTB := true, USE_NO_CHECKS := true,
    USE_KEXEC_FILE_SYSCALL := true, USE_KEXEC_SYSCALL := false, UBI_VID_HDR_OFFSET := none }

/-- An environment without symbolic links in which every flash attach yields index 2. -/
def ex_env : Env :=
  { readlink := fun _ => none, ubi_attach := fun _ => 2,
    find_attached_ubi_device := fun _ => 2 }

/-- A candidate on `device` with filesystem `fstype` and the given priority. -/
def ex_item (device fstype : CStr) (priority : Int) : boot_item_t :=
  { device := some device, fstype := some fstype, blocks := 2048000, label := none,
    kernelpath := "/mnt/boot/zImage".toList, dtbpath := none, initrd := none,
    cmdline := none, cmdline_append := none, exec_cmdline := none, priority := priority }

/-- Parameters holding the registry `items` and a top level with the system entry only. -/
def ex_params (items : List boot_item_t) : params_t :=
  { cfg := { mtdparts := none, fbcon := none },
    bootcfg := some { list := items },
    menu := { top := { parent := none,
                       list := [{ id := 7, label := "System menu".toList,
                                  description := none, submenu := some 1 }] } },
    context := kx_context.KX_CTX_MENU }

/-- Three candidates of priorities 10, 20 and 20. -/
def ex_three : List boot_item_t :=
  [ex_item "/dev/sda1".toList "ext4".toList 10, ex_item "/dev/sdb1".toList "ext4".toList 20,
   ex_item "/dev/sdc1".toList "ext4".toList 20]

/-- A single candidate of priority `-1`. -/
def ex_negative : List boot_item_t := [ex_item "/dev/sda1".toList "ext4".toList (-1)]

/-- A UBI candidate on `/dev/mtd5` with a pre-boot hook, a device tree and an initrd. -/
def ex_ubi_item : boot_item_t :=
  { device := some "/dev/mtd5".toList, fstype := some "ubi".toList, blocks := 65536,
    label := none, kernelpath := "/mnt/boot/zImage".toList,
    dtbpath := some "/mnt/boot/board.dtb".toList, initrd := some "/mnt/boot/initrd".toList,
    cmdline := none, cmdline_append := none, exec_cmdline := some "/bin/hook".toList,
    priority := 5 }

/-- The configuration read from the host kernel command line, without tags. -/
def ex_pcfg : cfgdata_t := { mtdparts := none, fbcon := none }

/-- The raw flash device `/dev/mtd5` with the guessed type `ubi`. -/
def ex_ubi_dev : device_t :=
  { device := "/dev/mtd5".toList, fstype := "ubi".toList, blocks := 65536 }

/-- The UBI candidate with an explicit command line. -/
def ex_ubi_item_cmdline : boot_item_t :=
  { ex_ubi_item with cmdline := some "root=ubi0_0 ubi.mtd=5".toList }

/-- A device list of three probes: a mount failure, a scanner failure and a success with one
section. -/
def ex_probes : List probe :=
  [{ dev := some { device := "/dev/sda1".toList, fstype := "ext4".toList, blocks := 1024 },
     mount_ok := false, bootinfo := none, umount_ok := true },
   { dev := some { device := "/dev/sdb1".toList, fstype := "ext4".toList, blocks := 1024 },
     mount_ok := true, bootinfo := none, umount_ok := true },
   { dev := some { device := "/dev/mtd5".toList, fstype := "ubi".toList, blocks := 1024 },
     mount_ok := true,
     bootinfo := some [{ label := none, kernelpath := "/mnt/boot/zImage".toList,
                         dtbpath := none, initrd := none, cmdline := none,
                         cmdline_append := none, exec_cmdline := none, priority := 3 }],
     umount_ok := true }]

/-- A launch in which the boot device is mounted and the loader fails. -/
def ex_lenv_load_fails : launch_env :=
  { mount_ok := true, load_ok := false, umount_ok := true, stat_net := stat_result.found,
    exec_ok := true }

/-- A launch in which every call succeeds. -/
def ex_lenv : launch_env :=
  { mount_ok := true, load_ok := true, umount_ok := true, stat_net := stat_result.found,
    exec_ok := true }

/-- A hook whose output carries the suffix `debug` and no device tree. -/
def ex_henv : hook_env :=
  { mount_ok := true, bind_ok := true, buildargv := fun s => [s],
    hook_stdout := some "APPEND=debug".toList,
    parse_exec_cmdline := fun _ => { dtbpath := none, cmdline_append := some "debug".toList },
    umount_dev_ok := true, umount_ok := true }

/-- A hook whose binary cannot be run. -/
def ex_henv_hook_fails : hook_env := { ex_henv with hook_stdout := none }

/-- The UBI candidate with the command-line suffix `quiet`. -/
def ex_ubi_item_quiet : boot_item_t :=
  { ex_ubi_item with cmdline_append := some "quiet".toList }

/-- A candidate on `/dev/sda1` whose command-line suffix has 300 characters. -/
def ex_item_long_suffix : boot_item_t :=
  { ex_item "/dev/sda1".toList "ext4".toList 0 with
    cmdline_append := some (List.replicate 300 'x') }

/-- A candidate on `/dev/sda1` with the command-line suffix `quiet`. -/
def ex_item_quiet : boot_item_t :=
  { ex_item "/dev/sda1".toList "ext4".toList 0 with cmdline_append := some "quiet".toList }

/-- The first boot partition of an eMMC card, whose path has 17 characters. -/
def ex_long_dev : device_t :=
  { device := "/dev/mmcblk0boot0".toList, fstype := "ext4".toList, blocks := 4096 }

/-- Action codes in the order of an enumeration that starts at `A_ERROR = -1`, with the
numeric keys and the timeout enabled. -/
def ex_acts : Actions :=
  { A_ERROR := -1, A_UP := 1, A_DOWN := 2, A_SELECT := 3, A_SUBMENU := 4, A_PARENTMENU := 5,
    A_REBOOT := 6, A_SHUTDOWN := 7, A_RESCAN := 8, A_DEBUG := 9, A_EXIT := 10,
    A_TIMEOUT := 11, A_KEY0 := 12, A_KEY9 := 21, USE_NUMKEYS := true, USE_TIMEOUT := true }

/-- A rescan that finds the three example devices. -/
def ex_renv : rescan_env := { devscan := some ex_probes, alloc_ok := true }

/-- The parameters after `build_menu`, before any device is scanned. -/
def ex_menu_params : params_t :=
  { cfg := ex_pcfg, bootcfg := none,
    menu := (build_menu ex_acts false).getD { top := { parent := none, list := [] } },
    context := kx_context.KX_CTX_MENU }

/-- The example configuration built with `USE_ICONS`. -/
def ex_cfg_icons : Config := { ex_cfg with USE_ICONS := true }

/-- The parameters after `build_menu` and a device scan that found nothing. -/
def ex_menu_params_scanned : params_t := { ex_menu_params with bootcfg := some { list := [] } }

/-! # Theorems -/

/-! ## Lemmas on the search of `fill_menu` -/

theorem fill_menu_search_spec (bl : bootconf_t) (a : List Int) (mi0 : Int) (k : Nat) :
    ((fill_menu_search bl a k mi0).1 = -1 ∧ (fill_menu_search bl a k mi0).2 = mi0 ∧
      ∀ i, i < k → a[i]? = some 0 → ∀ t, bl.list[i]? = some t → t.priority ≤ -1)
    ∨ (0 ≤ (fill_menu_search bl a k mi0).1 ∧ ∃ (j : Nat) (t : boot_item_t),
        (fill_menu_search bl a k mi0).2 = (j : Int) ∧ j < k ∧ a[j]? = some 0 ∧
        bl.list[j]? = some t ∧ t.priority = (fill_menu_search bl a k mi0).1 ∧
        (∀ i, i < k → a[i]? = some 0 → ∀ u, bl.list[i]? = some u →
          u.priority ≤ (fill_menu_search bl a k mi0).1) ∧
        (∀ i, i < j → a[i]? = some 0 → ∀ u, bl.list[i]? = some u →
          u.priority < (fill_menu_search bl a k mi0).1)) := by
  induction k with
  | zero => left; simp [fill_menu_search]
  | succ k ih =>
    have hstep : fill_menu_search bl a (k + 1) mi0
        = fill_menu_search_step bl a (fill_menu_search bl a k mi0) k := by
      simp [fill_menu_search, List.range_succ, List.foldl_append]
    rw [hstep]
    generalize fill_menu_search bl a k mi0 = r at ih
    obtain ⟨p, m⟩ := r
    simp only at ih
    unfold fill_menu_search_step
    by_cases ha : a[k]? = some 0
    · rw [if_pos ha]
      cases hl : bl.list[k]? with
      | none =>
        simp only
        rcases ih with ⟨h1, h2, h3⟩ | ⟨h0, j, t, h1, h2, h3, h4, h5, h6, h7⟩
        · left
          refine ⟨h1, h2, fun i hi hai u hu => ?_⟩
          rcases Nat.lt_succ_iff_lt_or_eq.mp hi with h | h
          · exact h3 i h hai u hu
          · subst h; rw [hl] at hu; cases hu
        · right
          refine ⟨h0, j, t, h1, Nat.lt_succ_of_lt h2, h3, h4, h5, fun i hi hai u hu => ?_, h7⟩
          rcases Nat.lt_succ_iff_lt_or_eq.mp hi with h | h
          · exact h6 i h hai u hu
          · subst h; rw [hl] at hu; cases hu
      | some tbi =>
        simp only
        by_cases hp : tbi.priority > p
        · rw [if_pos hp]
          right
          simp only
          have hnn : 0 ≤ tbi.priority := by
            rcases ih with ⟨h1, _, _⟩ | ⟨h0, _⟩
            · omega
            · omega
          refine ⟨hnn, k, tbi, rfl, Nat.lt_succ_self k, ha, hl, rfl, fun i hi hai u hu => ?_,
            fun i hi hai u hu => ?_⟩
          · rcases Nat.lt_succ_iff_lt_or_eq.mp hi with h | h
            · rcases ih with ⟨h1, _, h3⟩ | ⟨_, j, t, _, _, _, _, _, h6, _⟩
              · have := h3 i h hai u hu; omega
              · have := h6 i h hai u hu; omega
            · subst h; rw [hl] at hu; cases hu; exact le_refl _
          · rcases ih with ⟨h1, _, h3⟩ | ⟨_, j, t, _, _, _, _, _, h6, _⟩
            · have := h3 i hi hai u hu; omega
            · have := h6 i hi hai u hu; omega
        · rw [if_neg hp]
          rcases ih with ⟨h1, h2, h3⟩ | ⟨h0, j, t, h1, h2, h3, h4, h5, h6, h7⟩
          · left
            refine ⟨h1, h2, fun i hi hai u hu => ?_⟩
            rcases Nat.lt_succ_iff_lt_or_eq.mp hi with h | h
            · exact h3 i h hai u hu
            · subst h; rw [hl] at hu; cases hu; omega
          · right
            refine ⟨h0, j, t, h1, Nat.lt_succ_of_lt h2, h3, h4, h5, fun i hi hai u hu => ?_, h7⟩
            rcases Nat.lt_succ_iff_lt_or_eq.mp hi with h | h
            · exact h6 i h hai u hu
            · subst h; rw [hl] at hu; cases hu; simp only at hp ⊢; omega
    · rw [if_neg ha]
      rcases ih with ⟨h1, h2, h3⟩ | ⟨h0, j, t, h1, h2, h3, h4, h5, h6, h7⟩
      · left
        refine ⟨h1, h2, fun i hi hai u hu => ?_⟩
        rcases Nat.lt_succ_iff_lt_or_eq.mp hi with h | h
        · exact h3 i h hai u hu
        · subst h; exact absurd hai ha
      · right
        refine ⟨h0, j, t, h1, Nat.lt_succ_of_lt h2, h3, h4, h5, fun i hi hai u hu => ?_, h7⟩
        rcases Nat.lt_succ_iff_lt_or_eq.mp hi with h | h
        · exact h6 i h hai u hu
        · subst h; exact absurd hai ha

theorem FillInv.length_le {cfg : Config} {bl : bootconf_t} {top0 : kx_menu_level}
    {st : fill_state} {pl : List (Nat × boot_item_t)} (h : FillInv cfg bl top0 st pl) :
    pl.length ≤ bl.list.length := by
  have hsub : pl.map Prod.fst ⊆ List.range bl.list.length := by
    intro i hi
    obtain ⟨p, hp, rfl⟩ := List.mem_map.mp hi
    have := h.valid p hp
    rw [List.mem_range]
    exact (List.getElem?_eq_some_iff.mp this).1
  have := (h.nodup.subperm hsub).length_le
  simpa using this

theorem FillInv.init (cfg : Config) (bl : bootconf_t) (top0 : kx_menu_level) :
    FillInv cfg bl top0 { a := List.replicate bl.fill 0, max_i := -1, top := top0 } [] where
  valid := by simp
  len := by simp [bootconf_t.fill]
  marked := by
    intro i hi
    simp [bootconf_t.fill, List.getElem?_replicate, hi]
  nodup := by simp
  nonneg := by simp
  dom := by simp
  sorted := List.Pairwise.nil
  top := by simp

theorem FillInv.step {cfg : Config} {bl : bootconf_t} {top0 : kx_menu_level}
    {st : fill_state} {pl : List (Nat × boot_item_t)} (h : FillInv cfg bl top0 st pl)
    {j : Nat} {t : boot_item_t} (hj : st.a[j]? = some 0) (ht : bl.list[j]? = some t)
    (hnn : 0 ≤ t.priority)
    (hmax : ∀ i, i < bl.list.length → st.a[i]? = some 0 → ∀ u, bl.list[i]? = some u →
      u.priority ≤ t.priority)
    (hfirst : ∀ i, i < j → st.a[i]? = some 0 → ∀ u, bl.list[i]? = some u →
      u.priority < t.priority) :
    FillInv cfg bl top0
      { a := st.a.set j 1, max_i := (j : Int),
        top := menu_item_add st.top (cfg.A_DEVICES + (j : Int))
          (match t.label with
            | some l => l
            | none => t.kernelpath.drop cfg.MOUNTPOINT.length)
          (some (snprintf sizeof_desc
            (fmt_s t.device ++ " ".toList ++ fmt_s t.fstype ++ " ".toList
              ++ fmt_llu (t.blocks / 1024) ++ "Mb".toList))) none }
      (pl ++ [(j, t)]) := by
  have hjn : j < bl.list.length := (List.getElem?_eq_some_iff.mp ht).1
  have hjpl : j ∉ pl.map Prod.fst := (h.marked j hjn).mp hj
  refine ⟨?_, ?_, ?_, ?_, ?_, ?_, ?_, ?_⟩
  · intro p hp
    rcases List.mem_append.mp hp with hp | hp
    · exact h.valid p hp
    · simp at hp; subst hp; exact ht
  · simpa using h.len
  · intro i hi
    by_cases hij : i = j
    · subst hij
      have : i < st.a.length := by rw [h.len]; exact hi
      simp [List.getElem?_set_self, this]
    · have hne : j ≠ i := fun e => hij e.symm
      simp only [List.getElem?_set_ne hne, List.map_append, List.map_cons, List.map_nil,
        List.mem_append, List.mem_singleton, not_or]
      rw [h.marked i hi]
      exact ⟨fun hh => ⟨hh, hij⟩, fun hh => hh.1⟩
  · rw [List.map_append, List.nodup_append]
    refine ⟨h.nodup, by simp, ?_⟩
    intro a ha hb
    simp at hb
    subst hb
    exact hjpl ha
  · intro p hp
    rcases List.mem_append.mp hp with hp | hp
    · exact h.nonneg p hp
    · simp at hp; subst hp; exact hnn
  · intro p hp y u hu hy
    have hy1 : y ∉ pl.map Prod.fst := fun hh => hy (by simp at hh ⊢; exact Or.inl hh)
    have hy2 : y ≠ j := fun hh => hy (by simp [hh])
    rcases List.mem_append.mp hp with hp | hp
    · exact h.dom p hp y u hu hy1
    · simp at hp; subst hp
      have hyn : y < bl.list.length := (List.getElem?_eq_some_iff.mp hu).1
      have hya : st.a[y]? = some 0 := (h.marked y hyn).mpr hy1
      refine ⟨hmax y hyn hya u hu, fun heq => ?_⟩
      rcases Nat.lt_trichotomy y j with hlt | heq' | hgt
      · have := hfirst y hlt hya u hu
        simp only at heq; omega
      · exact absurd heq' hy2
      · exact hgt
  · rw [List.pairwise_append]
    refine ⟨h.sorted, List.pairwise_singleton _ _, ?_⟩
    intro p hp q hq
    simp at hq; subst hq
    exact h.dom p hp j t ht hjpl
  · simp [menu_item_add, h.top, fill_menu_entry]

theorem fill_menu_loop_spec (cfg : Config) (bl : bootconf_t) (top0 : kx_menu_level) :
    ∀ (fuel : Nat) (st : fill_state) (pl : List (Nat × boot_item_t)),
      FillInv cfg bl top0 st pl → bl.list.length < fuel + pl.length →
      ∃ st1 pl1, fill_menu_loop cfg bl bl.list.length fuel st = some st1 ∧
        FillInv cfg bl top0 st1 pl1 ∧
        (∀ i t, bl.list[i]? = some t → i ∉ pl1.map Prod.fst → t.priority < 0) := by
  intro fuel
  induction fuel with
  | zero =>
    intro st pl h hf
    have := h.length_le
    omega
  | succ fuel ih =>
    intro st pl h hf
    unfold fill_menu_loop
    rcases fill_menu_search_spec bl st.a st.max_i bl.list.length with
      ⟨h1, h2, h3⟩ | ⟨h0, j, t, h1, h2, h3, h4, h5, h6, h7⟩
    · have hneg : ¬ (fill_menu_search bl st.a bl.list.length st.max_i).1 ≥ 0 := by omega
      simp only [hneg, if_false, h1, if_true]
      refine ⟨_, pl, rfl, ⟨h.valid, h.len, h.marked, h.nodup, h.nonneg, h.dom, h.sorted, h.top⟩,
        ?_⟩
      intro i u hu hi
      have hin : i < bl.list.length := (List.getElem?_eq_some_iff.mp hu).1
      have := h3 i hin ((h.marked i hin).mpr hi) u hu
      omega
    · have hpos : (fill_menu_search bl st.a bl.list.length st.max_i).1 ≥ 0 := h0
      have hne : ¬ (fill_menu_search bl st.a bl.list.length st.max_i).1 = -1 := by omega
      simp only [hpos, if_true, h1, Int.toNat_ofNat, h4, hne, if_false]
      have hinv := h.step h3 h4 (by rw [h5]; exact h0)
        (fun i hi hai u hu => by rw [h5]; exact h6 i hi hai u hu)
        (fun i hi hai u hu => by rw [h5]; exact h7 i hi hai u hu)
      exact ih _ (pl ++ [(j, t)]) hinv (by simp; omega)

/-! ## Claims on `fill_menu` -/

theorem fill_menu_spec (cfg : Config) (fuel : Nat) (params : params_t) (bl : bootconf_t)
    (hb : params.bootcfg = some bl) (hfuel : bl.fill < fuel) :
    ∃ (params1 : params_t) (pl : List (Nat × boot_item_t)),
      fill_menu cfg fuel params = some (0, params1) ∧
      params1.menu.top.list = params.menu.top.list ++ pl.map (fill_menu_entry cfg) ∧
      (∀ p ∈ pl, bl.list[p.1]? = some p.2) ∧
      (pl.map Prod.fst).Nodup ∧
      pl.Pairwise PlacedBefore ∧
      (∀ p ∈ pl, 0 ≤ p.2.priority) ∧
      (∀ i t, bl.list[i]? = some t → i ∉ pl.map Prod.fst → t.priority < 0) := by
  unfold fill_menu
  rw [hb]
  simp only
  by_cases hpos : bl.fill > 0
  · rw [if_pos hpos]
    obtain ⟨st1, pl1, hrun, hinv, hfin⟩ :=
      fill_menu_loop_spec cfg bl params.menu.top fuel _ [] (FillInv.init cfg bl params.menu.top)
        (by simpa [bootconf_t.fill] using hfuel)
    have hrun1 : fill_menu_loop cfg bl bl.fill fuel
        { a := List.replicate bl.fill 0, max_i := -1, top := params.menu.top } = some st1 := hrun
    rw [hrun1]
    refine ⟨_, pl1, rfl, ?_, hinv.valid, hinv.nodup, hinv.sorted, hinv.nonneg, hfin⟩
    simp [hinv.top]
  · rw [if_neg hpos]
    refine ⟨params, [], rfl, by simp, by simp, by simp, List.Pairwise.nil, by simp, ?_⟩
    intro i t ht _
    have hlen : bl.list.length = 0 := by
      have : bl.fill = 0 := by omega
      simpa [bootconf_t.fill] using this
    have := (List.getElem?_eq_some_iff.mp ht).1
    omega

/-- C1: for every registry, the entries `fill_menu` adds to the top level are the entries
of a sequence of candidates whose priority never increases and in which, of two candidates
of equal priority, the one with the smaller registry index comes first. -/
theorem fill_menu_priority_order (cfg : Config) (fuel : Nat) (params : params_t)
    (bl : bootconf_t) (hb : params.bootcfg = some bl) (hfuel : bl.fill < fuel) :
    ∃ (params1 : params_t) (added : List kx_menu_item) (placed : List (Nat × boot_item_t)),
      fill_menu cfg fuel params = some (0, params1) ∧
      params1.menu.top.list = params.menu.top.list ++ added ∧
      added.map (fun e => e.id) = placed.map (fun p => cfg.A_DEVICES + (p.1 : Int)) ∧
      (∀ p ∈ placed, bl.list[p.1]? = some p.2) ∧
      placed.Pairwise (fun p q =>
        q.2.priority ≤ p.2.priority ∧ (p.2.priority = q.2.priority → p.1 < q.1)) := by
  obtain ⟨params1, pl, h1, h2, h3, _, h5, _, _⟩ := fill_menu_spec cfg fuel params bl hb hfuel
  refine ⟨params1, pl.map (fill_menu_entry cfg), pl, h1, h2, ?_, h3, h5⟩
  simp [fill_menu_entry, Function.comp_def]

/-- Witness of C1: a registry of three candidates with priorities 10, 20 and 20. -/
theorem fill_menu_priority_order_witness :
    (bootconf_t.mk ex_three).fill < 4 ∧
    ∃ (params1 : params_t) (added : List kx_menu_item) (placed : List (Nat × boot_item_t)),
      fill_menu ex_cfg 4 (ex_params ex_three) = some (0, params1) ∧
      params1.menu.top.list = (ex_params ex_three).menu.top.list ++ added ∧
      added.map (fun e => e.id) = placed.map (fun p => ex_cfg.A_DEVICES + (p.1 : Int)) ∧
      (∀ p ∈ placed, (bootconf_t.mk ex_three).list[p.1]? = some p.2) ∧
      placed.Pairwise (fun p q =>
        q.2.priority ≤ p.2.priority ∧ (p.2.priority = q.2.priority → p.1 < q.1)) :=
  ⟨by decide, fill_menu_priority_order ex_cfg 4 (ex_params ex_three) (bootconf_t.mk ex_three)
    rfl (by decide)⟩
/-- C2, as stated, fails: a registry with fill count 1 whose only candidate has priority
`-1` gets no entry; the top level keeps its single system entry. -/
theorem fill_menu_negative_priority_skipped :
    (bootconf_t.mk ex_negative).fill = 1 ∧
    fill_menu ex_cfg 2 (ex_params ex_negative) = some (0, ex_params ex_negative) ∧
    (ex_params ex_negative).menu.top.list.length = 1 := by
  refine ⟨rfl, ?_, rfl⟩
  decide

/-- C2, amended: for every registry with fill count `n > 0` whose candidates all have
priority at least 0, `fill_menu` ends and adds exactly `n` entries to the top level, one
per candidate: the registry indices of the added entries are a permutation of `0 .. n-1`. -/
theorem fill_menu_places_all (cfg : Config) (fuel : Nat) (params : params_t)
    (bl : bootconf_t) (hb : params.bootcfg = some bl) (_hn : 0 < bl.fill)
    (hpri : ∀ t ∈ bl.list, 0 ≤ t.priority) (hfuel : bl.fill < fuel) :
    ∃ (params1 : params_t) (added : List kx_menu_item) (placed : List (Nat × boot_item_t)),
      fill_menu cfg fuel params = some (0, params1) ∧
      params1.menu.top.list = params.menu.top.list ++ added ∧
      added.length = bl.fill ∧
      added.map (fun e => e.id) = placed.map (fun p => cfg.A_DEVICES + (p.1 : Int)) ∧
      (∀ p ∈ placed, bl.list[p.1]? = some p.2) ∧
      (placed.map Prod.fst).Perm (List.range bl.fill) := by
  obtain ⟨params1, pl, h1, h2, h3, h4, _, _, h7⟩ := fill_menu_spec cfg fuel params bl hb hfuel
  have hperm : (pl.map Prod.fst).Perm (List.range bl.fill) := by
    rw [List.perm_ext_iff_of_nodup h4 (List.nodup_range _)]
    intro i
    rw [List.mem_range]
    constructor
    · intro hi
      obtain ⟨p, hp, rfl⟩ := List.mem_map.mp hi
      exact (List.getElem?_eq_some_iff.mp (h3 p hp)).1
    · intro hi
      by_contra hni
      have hi1 : i < bl.list.length := hi
      have hget : bl.list[i]? = some bl.list[i] := List.getElem?_eq_getElem hi1
      have := h7 i _ hget hni
      have := hpri bl.list[i] (List.getElem_mem hi1)
      omega
  refine ⟨params1, pl.map (fill_menu_entry cfg), pl, h1, h2, ?_, ?_, h3, hperm⟩
  · have := hperm.length_eq
    simpa using this
  · simp [fill_menu_entry, Function.comp_def]

/-- Witness of the amended C2: three candidates of priorities 10, 20 and 20. -/
theorem fill_menu_places_all_witness :
    (0 < (bootconf_t.mk ex_three).fill ∧ (∀ t ∈ ex_three, 0 ≤ t.priority) ∧
      (bootconf_t.mk ex_three).fill < 4) ∧
    ∃ (params1 : params_t) (added : List kx_menu_item) (placed : List (Nat × boot_item_t)),
      fill_menu ex_cfg 4 (ex_params ex_three) = some (0, params1) ∧
      params1.menu.top.list = (ex_params ex_three).menu.top.list ++ added ∧
      added.length = (bootconf_t.mk ex_three).fill ∧
      added.map (fun e => e.id) = placed.map (fun p => ex_cfg.A_DEVICES + (p.1 : Int)) ∧
      (∀ p ∈ placed, (bootconf_t.mk ex_three).list[p.1]? = some p.2) ∧
      (placed.map Prod.fst).Perm (List.range (bootconf_t.mk ex_three).fill) :=
  ⟨⟨by decide, by decide, by decide⟩,
   fill_menu_places_all ex_cfg 4 (ex_params ex_three) (bootconf_t.mk ex_three) rfl
     (by decide) (by decide) (by decide)⟩

/-- C3: every entry `fill_menu` adds carries the id `A_DEVICES + i` for a registry index
`i` smaller than the fill count, the label of candidate `i` (its explicit label, else its
kernel path after the mount point) and the description formatted from the device,
filesystem type and `blocks / 1024` of candidate `i` by `snprintf`, which is that text
itself when it is shorter than `sizeof_desc`; and `main` maps the id back to `i`. -/
theorem fill_menu_entry_identity (cfg : Config) (fuel : Nat) (params : params_t)
    (bl : bootconf_t) (hb : params.bootcfg = some bl) (hfuel : bl.fill < fuel) :
    ∃ (params1 : params_t) (added : List kx_menu_item),
      fill_menu cfg fuel params = some (0, params1) ∧
      params1.menu.top.list = params.menu.top.list ++ added ∧
      ∀ e ∈ added, ∃ (i : Nat) (tbi : boot_item_t),
        i < bl.fill ∧ bl.list[i]? = some tbi ∧
        e.id = cfg.A_DEVICES + (i : Int) ∧
        e.id - cfg.A_DEVICES = (i : Int) ∧
        main_choice cfg e.id = some (i : Int) ∧
        e.label = (match tbi.label with
          | some l => l
          | none => tbi.kernelpath.drop cfg.MOUNTPOINT.length) ∧
        e.description = some (snprintf sizeof_desc
          (fmt_s tbi.device ++ " ".toList ++ fmt_s tbi.fstype ++ " ".toList
            ++ fmt_llu (tbi.blocks / 1024) ++ "Mb".toList)) ∧
        ((fmt_s tbi.device ++ " ".toList ++ fmt_s tbi.fstype ++ " ".toList
            ++ fmt_llu (tbi.blocks / 1024) ++ "Mb".toList).length < sizeof_desc →
          e.description = some (fmt_s tbi.device ++ " ".toList ++ fmt_s tbi.fstype
            ++ " ".toList ++ fmt_llu (tbi.blocks / 1024) ++ "Mb".toList)) := by
  obtain ⟨params1, pl, h1, h2, h3, _, _, _, _⟩ := fill_menu_spec cfg fuel params bl hb hfuel
  refine ⟨params1, pl.map (fill_menu_entry cfg), h1, h2, ?_⟩
  intro e he
  obtain ⟨p, hp, rfl⟩ := List.mem_map.mp he
  refine ⟨p.1, p.2, (List.getElem?_eq_some_iff.mp (h3 p hp)).1, h3 p hp, rfl, ?_, ?_, rfl, rfl, ?_⟩
  · simp [fill_menu_entry]
  · simp [fill_menu_entry, main_choice]
  · intro hlen
    simp only [fill_menu_entry, snprintf]
    rw [List.take_of_length_le]
    omega

/-- Witness of C3: three candidates of priorities 10, 20 and 20. -/
theorem fill_menu_entry_identity_witness :
    (bootconf_t.mk ex_three).fill < 4 ∧
    ∃ (params1 : params_t) (added : List kx_menu_item),
      fill_menu ex_cfg 4 (ex_params ex_three) = some (0, params1) ∧
      params1.menu.top.list = (ex_params ex_three).menu.top.list ++ added ∧
      ∀ e ∈ added, ∃ (i : Nat) (tbi : boot_item_t),
        i < (bootconf_t.mk ex_three).fill ∧ (bootconf_t.mk ex_three).list[i]? = some tbi ∧
        e.id = ex_cfg.A_DEVICES + (i : Int) ∧
        e.id - ex_cfg.A_DEVICES = (i : Int) ∧
        main_choice ex_cfg e.id = some (i : Int) ∧
        e.label = (match tbi.label with
          | some l => l
          | none => tbi.kernelpath.drop ex_cfg.MOUNTPOINT.length) ∧
        e.description = some (snprintf sizeof_desc
          (fmt_s tbi.device ++ " ".toList ++ fmt_s tbi.fstype ++ " ".toList
            ++ fmt_llu (tbi.blocks / 1024) ++ "Mb".toList)) ∧
        ((fmt_s tbi.device ++ " ".toList ++ fmt_s tbi.fstype ++ " ".toList
            ++ fmt_llu (tbi.blocks / 1024) ++ "Mb".toList).length < sizeof_desc →
          e.description = some (fmt_s tbi.device ++ " ".toList ++ fmt_s tbi.fstype
            ++ " ".toList ++ fmt_llu (tbi.blocks / 1024) ++ "Mb".toList)) :=
  ⟨by decide, fill_menu_entry_identity ex_cfg 4 (ex_params ex_three) (bootconf_t.mk ex_three)
    rfl (by decide)⟩

/-! ## add_cmd_option and the load vector -/

theorem add_cmd_option_some (cfg : Config) (env : Env) (s : Argv × Nat) (start : Option CStr)
    (path : CStr) :
    add_cmd_option cfg env s start (some path) = argv_put s (path_arg cfg env start path) := by
  unfold add_cmd_option path_arg
  cases hr : env.readlink path with
  | none => cases start <;> simp [strcat, strcpy, hr]
  | some buf =>
    by_cases hb : buf.head? = some '/'
    · have hne : buf ≠ [] := by
        intro h0
        rw [h0] at hb
        simp at hb
      cases start <;> simp [strcat, strcpy, memset_nul, hb, hne, hr]
    · cases start <;> simp [strcat, strcpy, hb, hr]

theorem argv_put_holds {s : Argv × Nat} {ws : List CStr} {k : Nat} (h : ArgvHolds s ws k)
    (hk : k < MAX_LOAD_ARGV_NR) (a : CStr) :
    ∃ s1, argv_put s a = some s1 ∧ ArgvHolds s1 (ws ++ [a]) (k + 1) := by
  obtain ⟨argv, idx⟩ := s
  obtain ⟨h1, h2, h3⟩ := h
  simp only at h1 h2
  subst h1 h2
  have hlt : ws.length < MAX_LOAD_ARGV_NR := by omega
  obtain ⟨m, hm⟩ : ∃ m, MAX_LOAD_ARGV_NR - ws.length = m + 1 := ⟨MAX_LOAD_ARGV_NR - ws.length - 1, by omega⟩
  refine ⟨((ws ++ [a]).map some ++ List.replicate (MAX_LOAD_ARGV_NR - (ws ++ [a]).length) none,
    ws.length + 1), ?_, rfl, by simp, by simp; omega⟩
  have hm2 : MAX_LOAD_ARGV_NR - (ws ++ [a]).length = m := by simp; omega
  rw [hm2]
  unfold argv_put argv_set
  simp only [hm, List.length_append, List.length_map, List.length_replicate]
  rw [if_pos (by omega)]
  simp [List.replicate_succ, List.set_append]

theorem ArgvHolds.mono {s : Argv × Nat} {ws : List CStr} {k : Nat} (h : ArgvHolds s ws k) :
    ArgvHolds s (ws ++ []) (k + 1) := by
  obtain ⟨h1, h2, h3⟩ := h
  exact ⟨by simpa using h1, by simpa using h2, by simp; omega⟩

theorem argv_put_if_holds {s : Argv × Nat} {ws : List CStr} {k : Nat} (h : ArgvHolds s ws k)
    (hk : k < MAX_LOAD_ARGV_NR) (c : Bool) (a : CStr) :
    ∃ s1, (if c = true then argv_put s a else some s) = some s1 ∧
      ArgvHolds s1 (ws ++ (if c = true then [a] else [])) (k + 1) := by
  cases c
  · exact ⟨s, by simp, by simpa using h.mono⟩
  · simpa using argv_put_holds h hk a

theorem add_cmd_option_holds (cfg : Config) (env : Env) {s : Argv × Nat} {ws : List CStr}
    {k : Nat} (h : ArgvHolds s ws k) (hk : k < MAX_LOAD_ARGV_NR) (start : Option CStr)
    (path : Option CStr) :
    ∃ s1, add_cmd_option cfg env s start path = some s1 ∧
      ArgvHolds s1 (ws ++ (path.map (path_arg cfg env start)).toList) (k + 1) := by
  cases path with
  | none => exact ⟨s, by simp [add_cmd_option], by simpa using h.mono⟩
  | some p =>
    rw [add_cmd_option_some]
    simpa using argv_put_holds h hk (path_arg cfg env start p)
theorem start_kernel_flags_holds (cfg : Config) :
    ∃ s, start_kernel_flags cfg = some (s,
        [some (if cfg.USE_HOST_DEBUG then "/bin/echo".toList else cfg.KEXEC_PATH),
         some "-e".toList, none, none]) ∧
      ArgvHolds s (load_flags cfg) 9 := by
  have h1 : ∀ a, argv_set (calloc MAX_LOAD_ARGV_NR) 0 a
      = some (some a :: List.replicate 12 none) := fun _ => rfl
  have h2 : ∀ a b, argv_set (some a :: List.replicate 12 none) (0 + 1) b
      = some (some a :: some b :: List.replicate 11 none) := fun _ _ => rfl
  have h3 : ∀ a, argv_set (calloc MAX_EXEC_ARGV_NR) 0 a = some [some a, none, none, none] :=
    fun _ => rfl
  have h4 : ∀ a b, argv_set [some a, none, none, none] (0 + 1) b
      = some [some a, some b, none, none] := fun _ _ => rfl
  have hinit : ∀ a b : CStr, ArgvHolds (some a :: some b :: List.replicate 11 none, 0 + 1 + 1)
      [a, b] 2 := fun _ _ => ⟨rfl, rfl, by simp⟩
  unfold start_kernel_flags
  simp only [h1, h2, h3, h4, Option.bind_eq_bind, Option.some_bind]
  have hA := hinit (if cfg.USE_HOST_DEBUG = true then "/bin/echo".toList else cfg.KEXEC_PATH)
    "-d".toList
  revert hA
  generalize ((some (if cfg.USE_HOST_DEBUG = true then "/bin/echo".toList else cfg.KEXEC_PATH)
    :: some "-d".toList :: List.replicate 11 none, 0 + 1 + 1) : Argv × Nat) = sA
  intro hA
  -- MEM_MIN
  have hB : ∃ sB, (match cfg.MEM_MIN with
      | some m => argv_put sA ("--mem-min=0x".toList ++ fmt_08x m)
      | none => some sA) = some sB ∧
      ArgvHolds sB ([if cfg.USE_HOST_DEBUG = true then "/bin/echo".toList else cfg.KEXEC_PATH, "-d".toList]
        ++ (cfg.MEM_MIN.map (fun m => "--mem-min=0x".toList ++ fmt_08x m)).toList) 3 := by
    cases cfg.MEM_MIN with
    | none => exact ⟨sA, rfl, by simpa using hA.mono⟩
    | some m => simpa using argv_put_holds hA (by decide) _
  obtain ⟨sB, hB1, hB2⟩ := hB
  have hC : ∃ sC, (match cfg.MEM_MAX with
      | some m => argv_put sB ("--mem-max==0x".toList ++ fmt_08x m)
      | none => some sB) = some sC ∧
      ArgvHolds sC ([if cfg.USE_HOST_DEBUG = true then "/bin/echo".toList else cfg.KEXEC_PATH, "-d".toList]
        ++ (cfg.MEM_MIN.map (fun m => "--mem-min=0x".toList ++ fmt_08x m)).toList
        ++ (cfg.MEM_MAX.map (fun m => "--mem-max==0x".toList ++ fmt_08x m)).toList) 4 := by
    cases cfg.MEM_MAX with
    | none => exact ⟨sB, rfl, by simpa using hB2.mono⟩
    | some m => simpa using argv_put_holds hB2 (by decide) _
  obtain ⟨sC, hC1, hC2⟩ := hC
  obtain ⟨sD, hD1, hD2⟩ := argv_put_holds hC2 (by decide)
    (if cfg.USE_HARDBOOT = true then "--load-hardboot".toList else "-l".toList)
  obtain ⟨sE, hE1, hE2⟩ := argv_put_if_holds hD2 (by decide) cfg.USE_ATAGS "--atags".toList
  obtain ⟨sF, hF1, hF2⟩ := argv_put_if_holds hE2 (by decide) cfg.USE_NO_DTB "--no-dtb".toList
  obtain ⟨sG, hG1, hG2⟩ := argv_put_if_holds hF2 (by decide) cfg.USE_NO_CHECKS "-i".toList
  have hH : ∃ sH, (if cfg.USE_KEXEC_FILE_SYSCALL = true then argv_put sG "-s".toList
      else if cfg.USE_KEXEC_SYSCALL = true then argv_put sG "-c".toList else some sG) = some sH ∧
      ArgvHolds sH (load_flags cfg) 9 := by
    unfold load_flags
    cases cfg.USE_KEXEC_FILE_SYSCALL
    · simpa using argv_put_if_holds hG2 (by decide) cfg.USE_KEXEC_SYSCALL "-c".toList
    · simpa using argv_put_holds hG2 (by decide) "-s".toList
  obtain ⟨sH, hH1, hH2⟩ := hH
  refine ⟨sH, ?_, hH2⟩
  rw [hB1, Option.some_bind, hC1, Option.some_bind, hD1, Option.some_bind, hE1, Option.some_bind,
    hF1, Option.some_bind, hG1, Option.some_bind, hH1, Option.some_bind]
  rfl
theorem strcpy_buf_some {size : Nat} {src : CStr} (dst : CStr) (h : src.length < size) :
    strcpy_buf size dst src = some src := by
  simp [strcpy_buf, h]

theorem strcat_buf_some {size : Nat} {dst src : CStr} (h : (dst ++ src).length < size) :
    strcat_buf size dst src = some (dst ++ src) := by
  simp only [List.length_append] at h
  simp [strcat_buf, h]

theorem start_kernel_tag_spec (cmdline_arg tag : CStr) (value : Option CStr)
    (h : (cmdline_arg ++ tag_text tag value).length < MAX_ARG_LEN) :
    start_kernel_tag cmdline_arg tag value = some (cmdline_arg ++ tag_text tag value) := by
  cases value with
  | none => simp [start_kernel_tag, tag_text]
  | some v =>
    simp only [tag_text, List.length_append] at h
    have h1 : (cmdline_arg ++ tag).length < MAX_ARG_LEN := by
      simp only [List.length_append]; omega
    have h2 : ((cmdline_arg ++ tag) ++ v).length < MAX_ARG_LEN := by
      simp only [List.length_append]; omega
    simp [start_kernel_tag, tag_text, strcat_buf_some h1, strcat_buf_some h2]

theorem tag_text_eq (tag : CStr) (value : Option CStr) :
    (match value with
      | some v => tag ++ v
      | none => []) = tag_text tag value := by
  cases value <;> rfl

theorem check_for_ubi_spec (cfg : Config) (env : Env) (device fstype c : CStr)
    (hu : strncmp_eq fstype "ubi".toList 3 = true)
    (hid : (mtd_id device).length < sizeof_str_mtd_id)
    (hdev : (ubi_mount_dev (env.find_attached_ubi_device (mtd_id device))).length
      < sizeof_mount_dev)
    (hlen : (c ++ root_spec cfg device fstype).length < MAX_ARG_LEN) :
    check_for_ubi cfg env device fstype c device fstype "ubi0".toList " ubi.mtd=".toList []
        (match cfg.UBI_VID_HDR_OFFSET with
          | some off => ",".toList ++ off
          | none => [])
      = some { rc := 1, cmdline_arg := c ++ root_spec cfg device fstype,
               mount_dev := ubi_mount_dev (env.find_attached_ubi_device (mtd_id device)),
               mount_fstype := "ubifs".toList, str_mtd_id := mtd_id device } := by
  unfold check_for_ubi
  simp only [hu, if_true]
  simp only [root_spec, hu, if_true, List.length_append] at hlen
  simp only [ubi_mount_dev, List.length_append] at hdev
  rw [strcpy_buf_some _ hid]
  simp only [Option.bind_eq_bind, Option.some_bind]
  rw [strcpy_buf_some _ (by simp only [List.length_append]; omega)]
  simp only [Option.some_bind]
  rw [strcat_buf_some (by simp only [List.length_append]; omega)]
  simp only [Option.some_bind]
  rw [strcpy_buf_some _ (by decide)]
  simp only [Option.some_bind]
  have e1 : "ubi0_0 ubi.mtd=".toList.length = 15 := by decide
  have e2 : "ubi0".toList.length = 4 := by decide
  have e3 : "_0".toList.length = 2 := by decide
  have e4 : " ubi.mtd=".toList.length = 9 := by decide
  have e5 : "ubi0_0 ubi.mtd=".toList = "ubi0".toList ++ "_0".toList ++ " ubi.mtd=".toList := by
    decide
  cases ho : cfg.UBI_VID_HDR_OFFSET with
  | none =>
    simp only [ho, List.length_nil] at hlen
    rw [strcat_buf_some (by simp only [List.length_append]; omega)]
    simp only [Option.some_bind]
    rw [strcat_buf_some (by simp only [List.length_append]; omega)]
    simp only [Option.some_bind]
    rw [strcat_buf_some (by simp only [List.length_append]; omega)]
    simp only [Option.some_bind]
    rw [strcat_buf_some (by simp only [List.length_append]; omega)]
    simp only [Option.some_bind, Option.isSome_none, Bool.false_eq_true, if_false, e5,
      List.append_assoc, List.append_nil, Option.pure_def, root_spec, hu, ho, ubi_mount_dev,
      if_true]
  | some off =>
    simp only [ho, List.length_append] at hlen
    rw [strcat_buf_some (by simp only [List.length_append]; omega)]
    simp only [Option.some_bind]
    rw [strcat_buf_some (by simp only [List.length_append]; omega)]
    simp only [Option.some_bind]
    rw [strcat_buf_some (by simp only [List.length_append]; omega)]
    simp only [Option.some_bind]
    rw [strcat_buf_some (by simp only [List.length_append]; omega)]
    simp only [Option.some_bind, Option.isSome_some, if_true]
    rw [strcat_buf_some (by simp only [List.length_append]; omega)]
    simp only [Option.some_bind, e5, List.append_assoc, Option.pure_def, root_spec, hu, ho,
      ubi_mount_dev, if_true]

theorem start_kernel_root_spec (cfg : Config) (env : Env) (item : boot_item_t)
    (device fstype c : CStr) (hf : item.fstype = some fstype)
    (hubi : strncmp_eq fstype "ubi".toList 3 = true →
      (mtd_id device).length < sizeof_str_mtd_id ∧
      (ubi_mount_dev (env.find_attached_ubi_device (mtd_id device))).length < sizeof_mount_dev)
    (hlen : (c ++ root_spec cfg device fstype ++ " rootfstype=".toList
      ++ effective_fstype fstype).length < MAX_ARG_LEN) :
    start_kernel_root cfg env item device fstype c device fstype
      = some (c ++ root_spec cfg device fstype ++ " rootfstype=".toList
          ++ effective_fstype fstype,
        if strncmp_eq fstype "ubi".toList 3 then
          ubi_mount_dev (env.find_attached_ubi_device (mtd_id device))
        else device,
        effective_fstype fstype) := by
  unfold start_kernel_root
  simp only [hf]
  simp only [List.length_append] at hlen
  cases hu : strncmp_eq fstype "ubi".toList 3 with
  | true =>
    obtain ⟨hid, hdev⟩ := hubi hu
    rw [check_for_ubi_spec cfg env device fstype c hu hid hdev
      (by simp only [List.length_append]; omega)]
    simp only [effective_fstype, hu, if_true] at hlen ⊢
    simp only [Option.bind_eq_bind, Option.some_bind]
    have h10 : ((1 : Int) = 0) = False := by decide
    simp only [h10, if_false, Option.some_bind]
    rw [strcat_buf_some (by simp only [List.length_append]; omega)]
    simp only [Option.some_bind]
    rw [strcat_buf_some (by simp only [List.length_append]; omega)]
    simp only [Option.some_bind, Option.pure_def]
  | false =>
    simp only [effective_fstype, root_spec, hu, Bool.false_eq_true, if_false] at hlen ⊢
    simp only [check_for_ubi, hu, Bool.false_eq_true, if_false, Option.bind_eq_bind,
      Option.some_bind, if_true]
    rw [strcat_buf_some (by simp only [List.length_append]; omega)]
    simp only [Option.some_bind]
    rw [strcat_buf_some (by simp only [List.length_append]; omega)]
    simp only [Option.some_bind]
    rw [strcat_buf_some (by simp only [List.length_append]; omega)]
    simp only [Option.some_bind, Option.pure_def]

theorem start_kernel_cmdline_spec (cfg : Config) (env : Env) (pcfg : cfgdata_t)
    (item : boot_item_t) (device fstype : CStr) (hf : item.fstype = some fstype)
    (hubi : strncmp_eq fstype "ubi".toList 3 = true →
      (mtd_id device).length < sizeof_str_mtd_id ∧
      (ubi_mount_dev (env.find_attached_ubi_device (mtd_id device))).length < sizeof_mount_dev)
    (hlen : (synth_cmdline cfg pcfg device fstype item.cmdline_append).length < MAX_ARG_LEN) :
    start_kernel_cmdline cfg env pcfg item device fstype device fstype
      = some (synth_cmdline cfg pcfg device fstype item.cmdline_append,
         if strncmp_eq fstype "ubi".toList 3 then
           ubi_mount_dev (env.find_attached_ubi_device (mtd_id device))
         else device,
         effective_fstype fstype) := by
  unfold start_kernel_cmdline
  unfold synth_cmdline at hlen ⊢
  simp only [tag_text_eq, List.length_append] at hlen ⊢
  rw [strcpy_buf_some _ (by decide)]
  simp only [Option.bind_eq_bind, Option.some_bind]
  rw [strcat_buf_some (by decide)]
  simp only [Option.some_bind]
  rw [start_kernel_root_spec cfg env item device fstype _ hf hubi
    (by simp only [List.length_append]; omega)]
  simp only [Option.some_bind]
  rw [strcat_buf_some (by simp only [List.length_append]; omega)]
  simp only [Option.some_bind]
  rw [start_kernel_tag_spec _ _ _ (by simp only [List.length_append]; omega)]
  simp only [Option.some_bind]
  rw [start_kernel_tag_spec _ _ _ (by simp only [List.length_append]; omega)]
  simp only [Option.some_bind]
  rw [start_kernel_tag_spec _ _ _ (by simp only [List.length_append]; omega)]
  simp only [Option.some_bind, Option.pure_def]


theorem start_kernel_args_spec (cfg : Config) (env : Env) (pcfg : cfgdata_t)
    (item : boot_item_t) (device fstype : CStr) (hd : item.device = some device)
    (hf : item.fstype = some fstype) (hfit : launch_fits cfg env pcfg item device fstype) :
    ∃ st, start_kernel_args cfg env pcfg item = some st ∧
      ArgvHolds (st.load_argv, st.idx) (load_vector cfg env pcfg item device fstype) 13 ∧
      st.exec_argv = [some (if cfg.USE_HOST_DEBUG then "/bin/echo".toList else cfg.KEXEC_PATH),
        some "-e".toList, none, none] ∧
      st.cmdline_arg = (match item.cmdline with
        | some _ => none
        | none => some (synth_cmdline cfg pcfg device fstype item.cmdline_append)) ∧
      st.mount_dev = some (match item.cmdline with
        | some _ => device
        | none => if strncmp_eq fstype "ubi".toList 3 then
            ubi_mount_dev (env.find_attached_ubi_device (mtd_id device)) else device) ∧
      st.mount_fstype = some (match item.cmdline with
        | some _ => fstype
        | none => effective_fstype fstype) := by
  obtain ⟨s0, h0, hs0⟩ := start_kernel_flags_holds cfg
  unfold start_kernel_args
  rw [h0]
  simp only
  have hitem : ∃ s1, start_kernel_item cfg env pcfg item s0 = some (s1,
      some (match item.cmdline with
        | some _ => device
        | none => if strncmp_eq fstype "ubi".toList 3 then
            ubi_mount_dev (env.find_attached_ubi_device (mtd_id device)) else device),
      some (match item.cmdline with
        | some _ => fstype
        | none => effective_fstype fstype),
      (match item.cmdline with
        | some _ => none
        | none => some (synth_cmdline cfg pcfg device fstype item.cmdline_append))) ∧
      ArgvHolds s1 (load_flags cfg ++ [cmdline_argument cfg env pcfg item device fstype]) 10 := by
    unfold start_kernel_item cmdline_argument
    simp only [hd, hf, strcpy_buf_some [] hfit.1, strcpy_buf_some [] hfit.2.1]
    cases hc : item.cmdline with
    | some c =>
      obtain ⟨s1, e1, i1⟩ := add_cmd_option_holds cfg env hs0 (by decide)
        (some "--command-line=".toList) (some c)
      simp only [e1]
      exact ⟨s1, rfl, by simpa using i1⟩
    | none =>
      obtain ⟨hlen, hubi⟩ := hfit.2.2 hc
      simp only [start_kernel_cmdline_spec cfg env pcfg item device fstype hf hubi hlen]
      obtain ⟨s1, e1, i1⟩ := argv_put_holds hs0 (by decide)
        (synth_cmdline cfg pcfg device fstype item.cmdline_append)
      simp only [e1]
      exact ⟨s1, rfl, i1⟩
  obtain ⟨s1, e1, i1⟩ := hitem
  rw [e1]
  simp only
  obtain ⟨s2, e2, i2⟩ := add_cmd_option_holds cfg env i1 (by decide) (some "--dtb=".toList)
    item.dtbpath
  obtain ⟨s3, e3, i3⟩ := add_cmd_option_holds cfg env i2 (by decide) (some "--initrd=".toList)
    item.initrd
  obtain ⟨s4, e4, i4⟩ := add_cmd_option_holds cfg env i3 (by decide) none (some item.kernelpath)
  rw [e2]
  simp only
  rw [e3]
  simp only
  rw [e4]
  simp only
  exact ⟨_, rfl, by simpa [load_vector] using i4, rfl, rfl, rfl, rfl⟩

/-! ## Claims on the UBI rewrite -/

/-- C6, evaluated: for the names `mtd10` and `mtd15` the extracted partition id is the last
digit alone (`0` and `5`), not the two trailing digits, because the test applies `isdigit`
to the value of `atoi` instead of to a character; for `mtd48` the id is `488`, three
characters, one more than the buffer `str_mtd_id[3]` holds with its terminator. -/
theorem mtd_id_two_digit_names :
    mtd_id "/dev/mtd10".toList = "0".toList ∧
    mtd_id "/dev/mtd15".toList = "5".toList ∧
    mtd_id "/dev/mtd5".toList = "5".toList ∧
    mtd_id "/dev/mtd48".toList = "488".toList ∧
    sizeof_str_mtd_id < (mtd_id "/dev/mtd48".toList).length + 1 := by
  decide

/-- C7, evaluated: for the UBI candidate `/dev/mtd5` attached as UBI device 2, discovery
mounts `/dev/ubi2_0` as `ubifs` and so does `start_kernel` when the command line is
synthesized, but `pre_start_kernel` mounts the raw pair `/dev/mtd5`, `ubi` for the hook, and
`start_kernel` mounts the raw pair as well when the candidate has an explicit command
line. -/
theorem ubi_mount_pairs_disagree :
    scan_devices_mount ex_env ex_ubi_dev = some ("/dev/ubi2_0".toList, "ubifs".toList) ∧
    start_kernel_mount ex_cfg ex_env ex_pcfg ex_ubi_item
      = some (some "/dev/ubi2_0".toList, some "ubifs".toList) ∧
    pre_start_kernel_mount ex_ubi_item = some (some "/dev/mtd5".toList, some "ubi".toList) ∧
    start_kernel_mount ex_cfg ex_env ex_pcfg ex_ubi_item_cmdline
      = some (some "/dev/mtd5".toList, some "ubi".toList) := by
  decide

/-! ## Claims on `add_cmd_option` and the vector bound -/

/-- C10, evaluated: with every optional load flag configured and a candidate that has a
device tree and an initrd, `start_kernel` stores 13 arguments: the index reaches
`MAX_LOAD_ARGV_NR` and no slot of the vector is left `NULL`. -/
theorem start_kernel_fills_every_slot :
    (start_kernel_args ex_cfg ex_env ex_pcfg ex_ubi_item).map (fun st => st.idx)
      = some MAX_LOAD_ARGV_NR ∧
    (start_kernel_args ex_cfg ex_env ex_pcfg ex_ubi_item).map
      (fun st => (st.load_argv.length, decide (none ∈ st.load_argv))) = some (13, false) := by
  decide

/-! ## Lemmas on strings -/

theorem strncmp_ubi_iff (fstype : CStr) :
    strncmp_eq fstype "ubi".toList 3 = true ↔ "ubi".toList <+: fstype := by
  unfold strncmp_eq
  rw [List.prefix_iff_eq_take]
  simp only [beq_iff_eq]
  constructor
  · intro h
    exact h.symm
  · intro h
    exact h.symm

theorem mtd_id_mtd5 (pre : CStr) : mtd_id (pre ++ "mtd5".toList) = "5".toList := by
  have h2 : (pre ++ "mtd5".toList).drop ((pre ++ "mtd5".toList).length - 2) = "d5".toList := by
    have : (pre ++ "mtd5".toList).length - 2 = pre.length + 2 := by simp
    rw [this, List.drop_append]
    rfl
  have h1 : (pre ++ "mtd5".toList).drop ((pre ++ "mtd5".toList).length - 1) = "5".toList := by
    have : (pre ++ "mtd5".toList).length - 1 = pre.length + 3 := by simp
    rw [this, List.drop_append]
    rfl
  unfold mtd_id
  rw [h2, h1]
  rfl

theorem ArgvHolds.length_eq {argv : Argv} {idx : Nat} {ws : List CStr}
    (h : ArgvHolds (argv, idx) ws MAX_LOAD_ARGV_NR) :
    argv.length = MAX_LOAD_ARGV_NR ∧ idx ≤ MAX_LOAD_ARGV_NR := by
  obtain ⟨h1, h2, h3⟩ := h
  simp only at h1 h2
  subst h1 h2
  refine ⟨?_, h3⟩
  simp
  omega

/-- For every candidate with a device and a filesystem type and no explicit command line
whose strings fit the buffers of `start_kernel`, the load vector holds the argument
`--command-line=` followed by `root=<root-spec> rootfstype=<fstype> rootwait`, then
` mtdparts=<cfg>` iff mtdparts is configured, then ` fbcon=<cfg>` iff fbcon is configured,
then a space and the suffix iff the candidate has one; the root spec is the device path, or
`ubi0_0 ubi.mtd=<id>` (and the offset tag when `UBI_VID_HDR_OFFSET` is configured) when the
filesystem type begins with `ubi`, in which case the filesystem named is `ubifs`. -/
theorem start_kernel_synthesized_cmdline (cfg : Config) (env : Env) (pcfg : cfgdata_t)
    (item : boot_item_t) (device fstype : CStr) (hd : item.device = some device)
    (hf : item.fstype = some fstype) (hc : item.cmdline = none)
    (hfit : launch_fits cfg env pcfg item device fstype) :
    ∃ st, start_kernel_args cfg env pcfg item = some st ∧
      st.cmdline_arg ∈ st.load_argv ∧
      st.cmdline_arg = some
        ("--command-line=".toList
          ++ ("root=".toList
              ++ (if "ubi".toList <+: fstype then
                    "ubi0_0 ubi.mtd=".toList ++ mtd_id device
                      ++ (match cfg.UBI_VID_HDR_OFFSET with
                          | some off => ",".toList ++ off
                          | none => [])
                  else device)
              ++ " rootfstype=".toList
              ++ (if "ubi".toList <+: fstype then "ubifs".toList else fstype)
              ++ " rootwait".toList)
          ++ (match pcfg.mtdparts with
              | some m => " mtdparts=".toList ++ m
              | none => [])
          ++ (match pcfg.fbcon with
              | some f => " fbcon=".toList ++ f
              | none => [])
          ++ (match item.cmdline_append with
              | some a => " ".toList ++ a
              | none => [])) := by
  obtain ⟨st, h1, h2, _, h4, _, _⟩ :=
    start_kernel_args_spec cfg env pcfg item device fstype hd hf hfit
  rw [hc] at h4
  simp only at h4
  refine ⟨st, h1, ?_, ?_⟩
  · rw [h4]
    obtain ⟨e1, _, _⟩ := h2
    simp only at e1
    rw [e1]
    apply List.mem_append_left
    apply List.mem_map_of_mem
    simp [load_vector, cmdline_argument, hc]
  · rw [h4]
    congr 1
    unfold synth_cmdline root_spec effective_fstype
    by_cases hu : "ubi".toList <+: fstype
    · have hu1 := (strncmp_ubi_iff fstype).mpr hu
      simp only [hu1, hu, if_true]
      simp [List.append_assoc]
    · have hu1 : strncmp_eq fstype "ubi".toList 3 = false := by
        cases h : strncmp_eq fstype "ubi".toList 3
        · rfl
        · exact absurd ((strncmp_ubi_iff fstype).mp h) hu
      simp only [hu1, hu, if_false]
      simp [List.append_assoc]

set_option maxRecDepth 8192 in
/-- C4, evaluated: for the candidate on `/dev/sda1` of type `ext4` without explicit command
line whose suffix has 300 characters, the text the claim describes has 355 characters; it
does not fit the `MAX_ARG_LEN` bytes allocated at line 416 ("allocate space FIXME"), the
`strcat` of line 450 writes past the end of the buffer and no command-line argument is
defined.  With the suffix `quiet` the argument is the text the claim describes. -/
theorem start_kernel_cmdline_overrun :
    ex_item_long_suffix.device = some "/dev/sda1".toList ∧
    ex_item_long_suffix.fstype = some "ext4".toList ∧
    ex_item_long_suffix.cmdline = none ∧
    ex_item_long_suffix.cmdline_append = some (List.replicate 300 'x') ∧
    (synth_cmdline ex_cfg ex_pcfg "/dev/sda1".toList "ext4".toList
      ex_item_long_suffix.cmdline_append).length = 355 ∧
    MAX_ARG_LEN = 256 ∧
    start_kernel_args ex_cfg ex_env ex_pcfg ex_item_long_suffix = none ∧
    (start_kernel_args ex_cfg ex_env ex_pcfg ex_item_quiet).map (fun st => st.cmdline_arg)
      = some (some "--command-line=root=/dev/sda1 rootfstype=ext4 rootwait quiet".toList) := by
  decide

/-- The pair `scan_devices` mounts for a device whose path and type fit `mount_dev[16]` and
`mount_fstype[16]`: `/dev/ubi<u>_0` and `ubifs` when the type begins with `ubi`, the
partition id fits `str_mtd_id[3]` and the attach returns `u`; the raw path and type for
every other type. -/
theorem scan_devices_mount_spec (env : Env) (dev : device_t)
    (hd : dev.device.length < sizeof_mount_dev) (hf : dev.fstype.length < sizeof_mount_fstype) :
    ("ubi".toList <+: dev.fstype → (mtd_id dev.device).length < sizeof_str_mtd_id →
      (ubi_mount_dev (env.ubi_attach (mtd_id dev.device))).length < sizeof_mount_dev →
      scan_devices_mount env dev
        = some (ubi_mount_dev (env.ubi_attach (mtd_id dev.device)), "ubifs".toList)) ∧
    (¬ "ubi".toList <+: dev.fstype →
      scan_devices_mount env dev = some (dev.device, dev.fstype)) := by
  constructor
  · intro hu hid hdev
    have hu1 := (strncmp_ubi_iff dev.fstype).mpr hu
    simp only [ubi_mount_dev, List.length_append] at hdev
    unfold scan_devices_mount
    rw [strcpy_buf_some _ hd, strcpy_buf_some _ hf]
    simp only [Option.bind_eq_bind, Option.some_bind, hu1, if_true]
    rw [strcpy_buf_some _ hid]
    simp only [Option.some_bind]
    rw [strcpy_buf_some _ (by simp only [List.length_append]; omega)]
    simp only [Option.some_bind]
    rw [strcat_buf_some (by simp only [List.length_append]; omega)]
    simp only [Option.some_bind]
    rw [strcpy_buf_some _ (by decide)]
    simp only [Option.some_bind, Option.pure_def, ubi_mount_dev]
  · intro hu
    have hu1 : strncmp_eq dev.fstype "ubi".toList 3 = false := by
      cases h : strncmp_eq dev.fstype "ubi".toList 3
      · rfl
      · exact absurd ((strncmp_ubi_iff dev.fstype).mp h) hu
    unfold scan_devices_mount
    rw [strcpy_buf_some _ hd, strcpy_buf_some _ hf]
    simp only [Option.bind_eq_bind, Option.some_bind, hu1, Bool.false_eq_true, if_false,
      Option.pure_def]

/-- C5, evaluated: for the device `/dev/mmcblk0boot0` of type `ext4`, whose path has 17
characters, the copy of line 550 writes past the end of `mount_dev[16]` and the mount pair
of `scan_devices` is not defined, where the claim has the raw path and type; the copy of
line 407 of `start_kernel` overruns the same way for a candidate on that device.  For the
device `/dev/mtd5` of type `ubi` attached as 2 the pair is `/dev/ubi2_0`, `ubifs`. -/
theorem scan_devices_mount_overrun :
    ex_long_dev.device = "/dev/mmcblk0boot0".toList ∧
    ex_long_dev.fstype = "ext4".toList ∧
    ex_long_dev.device.length = 17 ∧
    sizeof_mount_dev = 16 ∧
    scan_devices_mount ex_env ex_long_dev = none ∧
    start_kernel_args ex_cfg ex_env ex_pcfg
      (ex_item "/dev/mmcblk0boot0".toList "ext4".toList 0) = none ∧
    scan_devices_mount ex_env ex_ubi_dev = some ("/dev/ubi2_0".toList, "ubifs".toList) := by
  decide

/-- C12, evaluated: when the boot device is mounted and the loader fails, `start_kernel`
ends in `exit(-1)` without any `umount`: the mount point is still held when the process
exits.  The same holds in `pre_start_kernel` when the hook cannot be run.  On the path
where every call succeeds the `umount` comes after the load and before `execve`. -/
theorem start_kernel_failed_load_keeps_mount :
    (start_kernel ex_cfg ex_env ex_lenv_load_fails ex_pcfg ex_ubi_item).map
      (fun r => (r.2, r.1.length, r.1.filter (Event.is_umount ex_cfg.MOUNTPOINT),
        mount_discipline ex_cfg.MOUNTPOINT false r.1 false))
      = some (Termination.exited (-1), 3, [], some true) ∧
    (pre_start_kernel ex_cfg ex_henv_hook_fails ex_ubi_item_quiet).map
      (fun r => (r.term, r.trace.filter (Event.is_umount ex_cfg.MOUNTPOINT),
        mount_discipline ex_cfg.MOUNTPOINT false r.trace false))
      = some (Termination.exited (-1), [], some true) ∧
    (start_kernel ex_cfg ex_env ex_lenv ex_pcfg ex_ubi_item).map
      (fun r => (r.2, r.1.drop 2, mount_discipline ex_cfg.MOUNTPOINT false r.1 false))
      = some (Termination.replaced,
          [Event.umount ex_cfg.MOUNTPOINT true, Event.stat stat_result.found,
           Event.execve [some "/usr/sbin/kexec".toList, some "-e".toList, none, none]],
          some false) := by
  decide

theorem pre_start_kernel_update_size (item : boot_item_t) (current : hook_section)
    (old suffix : CStr) (ho : item.cmdline_append = some old)
    (hs : current.cmdline_append = some suffix) :
    ∃ u, pre_start_kernel_update item current = some u ∧
      u.item.cmdline_append = some (old ++ " ".toList ++ suffix) ∧
      u.malloc_size = some (old.length + suffix.length + 1) ∧
      u.stored = some (old.length + suffix.length + 2) := by
  unfold pre_start_kernel_update
  cases hd : current.dtbpath <;>
    simp [hs, ho, strcpy, strcat] <;> omega

/-- C15, evaluated: for a candidate with the suffix `quiet` and a hook output carrying the
suffix `debug`, the new suffix is `quiet debug`, whose 11 characters and terminator need
12 bytes, while the buffer is allocated with 11; and for a candidate without suffix the
update reads the length of a `NULL` string and has no defined result. -/
theorem pre_start_kernel_suffix_buffer :
    (pre_start_kernel ex_cfg ex_henv ex_ubi_item_quiet).map
      (fun r => (r.update.item.cmdline_append, r.update.malloc_size, r.update.stored))
      = some (some "quiet debug".toList, some 11, some 12) ∧
    ex_ubi_item.cmdline_append = none ∧
    pre_start_kernel ex_cfg ex_henv ex_ubi_item = none := by
  decide

/-! ## Claims on the menu -/

/-- C13, evaluated: `main` sets the registry pointer to `NULL` before the first device scan,
and a scan that cannot be started leaves it so.  In a build with `USE_ICONS`, for the action
Rescan in that state `do_rescan` reads `params->bootcfg->fill` through the `NULL` pointer
(line 894) and `process_ctx_menu` returns no value, where the claim has one of its three
classes; the same happens when `Rescan` is chosen with Select in the system menu, after two
actions that are handled.  With a registry, the same action returns 1. -/
theorem process_ctx_menu_rescan_null_registry :
    ex_cfg_icons.USE_ICONS = true ∧
    ex_menu_params.bootcfg = none ∧
    (scan_devices ex_cfg_icons ex_env none ex_menu_params).1 = -1 ∧
    (scan_devices ex_cfg_icons ex_env none ex_menu_params).2.1.bootcfg = none ∧
    process_ctx_menu ex_cfg_icons ex_acts false ex_env ex_renv ex_menu_params
      ex_acts.A_RESCAN = none ∧
    (process_ctx_menu_run ex_cfg_icons ex_acts false ex_env ex_renv ex_menu_params
      [ex_acts.A_SELECT, ex_acts.A_DOWN]).isSome = true ∧
    process_ctx_menu_run ex_cfg_icons ex_acts false ex_env ex_renv ex_menu_params
      [ex_acts.A_SELECT, ex_acts.A_DOWN, ex_acts.A_SELECT] = none ∧
    (process_ctx_menu ex_cfg_icons ex_acts false ex_env ex_renv ex_menu_params_scanned
      ex_acts.A_RESCAN).map Prod.fst = some 1 := by
  decide

/-- C14, evaluated: from the menu built by `build_menu`, whose active level is the top
level and whose top level has no parent, the action ExitSubmenu sets the active level
pointer to `NULL` (line 943 copies `menu->current->parent` unchecked): the pointer is then
neither the top level nor the system level, and the next Select, which reads
`menu->current->current` through it (line 929), has no defined result.  Select on
`System menu` enters the system level. -/
theorem process_ctx_menu_pointer_null :
    (build_menu ex_acts false).map (fun m => (m.current, m.top.parent)) = some (some 0, none) ∧
    (process_ctx_menu_run ex_cfg ex_acts false ex_env ex_renv ex_menu_params
      [ex_acts.A_PARENTMENU]).map (fun p => p.menu.current) = some none ∧
    process_ctx_menu_run ex_cfg ex_acts false ex_env ex_renv ex_menu_params
      [ex_acts.A_PARENTMENU, ex_acts.A_SELECT] = none ∧
    (process_ctx_menu_run ex_cfg ex_acts false ex_env ex_renv ex_menu_params
      [ex_acts.A_SELECT]).map (fun p => p.menu.current) = some (some 1) := by
  decide

end Kexecboot
